import Mathlib

/-!
Google Business Explorer: search proxy and search interface.

A shallow embedding of `src/app/api/places/route.js` (the search proxy, handlers `POST`
and `GET`) and of the state transitions of `src/app/page.js` (`handleSubmit`,
`fetchNextPage`, the `Export CSV` handler), followed by the properties established about
them.

Conventions of the embedding.

* JavaScript values are the type `JsValue`.  An integer-valued number is `num n`, the
  IEEE double nearest to the integer `n`: it is `n` itself for magnitudes up to `2 ^ 53`,
  and `numberText` prints it as `Number.prototype.toString` does.  A number that is not
  an integer, such as the rating 4.5, is represented by the numeral that
  `Number.prototype.toString` gives it (`frac`).
* A conversion to a string that throws a `TypeError` (an object that carries its own
  `toString` key, which `JSON.parse` can produce) is the result `none` of `toStr`.
* An `await`ed promise that rejects without a surrounding `try`/`catch` makes the async
  handler reject: this is the outcome `threw`.
* The calls a handler makes to the upstream provider are returned next to its outcome.
-/

namespace Places

/-! ## Numbers: rounding to a double and `Number.prototype.toString` -/

/-- The least `e`, counted up from the given one, with `m / 2 ^ e < 2 ^ 53`: the binary
exponent of the double nearest to `m`. -/
def binaryExponent (m : Nat) : Nat → Nat → Nat
  | 0, e => e
  | fuel + 1, e => if m / 2 ^ e < 2 ^ 53 then e else binaryExponent m fuel (e + 1)

/-- The bound `2 ^ 1024` from which a number rounds to `Infinity`. -/
def doubleLimit : Nat :=
  (2 ^ 256) ^ 4

/-- The IEEE double nearest to the natural number `m`, ties going to the even
significand; `none` is `Infinity`. Every `m < 2 ^ 53` is its own double. -/
def roundToDouble (m : Nat) : Option Nat :=
  if m < 2 ^ 53 then some m
  else if doubleLimit ≤ m then none
  else
    let e := binaryExponent m 1024 0
    let q := m / 2 ^ e
    let r := m % 2 ^ e
    let half := 2 ^ (e - 1)
    let q := if half < r ∨ (r = half ∧ q % 2 = 1) then q + 1 else q
    if q * 2 ^ e < doubleLimit then some (q * 2 ^ e) else none

/-- Whether the decimal `c` denotes the double `v ≥ 2 ^ 53`, that is whether `c` rounds
to `v`: it lies within half a gap of `v`, the ends included when the significand of `v`
is even. -/
def roundsTo (v c : Nat) : Bool :=
  let e := binaryExponent v 1024 0
  let q := v / 2 ^ e
  let up := 2 ^ e
  let down := if q = 2 ^ 52 then 2 ^ (e - 1) else 2 ^ e
  if q % 2 = 0 then 2 * v ≤ 2 * c + down && 2 * c ≤ 2 * v + up
  else 2 * v < 2 * c + down && 2 * c < 2 * v + up

/-- The shortest decimal `s * 10 ^ j` that denotes the double `v`, searched from the
power `10 ^ j` downwards; of two candidates the one nearer to `v`, of two equally near the
even one (`Number::toString`, steps on `n`, `k` and `s`). -/
def shortestDecimal (v : Nat) : Nat → Nat × Nat
  | 0 => (v, 0)
  | j + 1 =>
    let p := 10 ^ (j + 1)
    let below := v / p * p
    let above := below + p
    let okBelow := 0 < below && roundsTo v below
    let okAbove := roundsTo v above
    if okBelow && okAbove then
      if v - below < above - v then (below / p, j + 1)
      else if above - v < v - below then (above / p, j + 1)
      else if (below / p) % 2 = 0 then (below / p, j + 1) else (above / p, j + 1)
    else if okBelow then (below / p, j + 1)
    else if okAbove then (above / p, j + 1)
    else shortestDecimal v j

/-- The exponential form of `Number::toString` for a number of `n > 21` integer digits. -/
def exponentText (digits : List Char) (n : Nat) : String :=
  match digits with
  | [] => ""
  | [d] => String.mk [d] ++ "e+" ++ toString (n - 1)
  | d :: rest => String.mk (d :: '.' :: rest) ++ "e+" ++ toString (n - 1)

/-- The text `Number::toString` gives the integer-valued double `v`: the decimal numeral
below `2 ^ 53`, else the shortest digits that denote `v`, followed by zeros up to 21
digits and in exponential form beyond. -/
def doubleText (v : Nat) : String :=
  if v < 2 ^ 53 then toString v
  else
    let (s, j) := shortestDecimal v 330
    let digits := (toString s).toList
    let n := digits.length + j
    if n ≤ 21 then String.mk (digits ++ List.replicate j '0')
    else exponentText digits n

/-- The text of the double nearest to the natural number `m`. -/
def naturalText (m : Nat) : String :=
  match roundToDouble m with
  | none => "Infinity"
  | some v => doubleText v

/-- The result of `x.toString()` for the number `x` nearest to the integer `n`. -/
def numberText (n : Int) : String :=
  if n < 0 then "-" ++ naturalText n.natAbs else naturalText n.natAbs

/-! ## JavaScript values -/

/-- A JavaScript value as it occurs in this program: `undefined`, or a value produced
by `JSON.parse`. Objects list their own properties in order. -/
inductive JsValue where
  | undefined : JsValue
  | null : JsValue
  | bool (b : Bool) : JsValue
  | num (n : Int) : JsValue
  | frac (numeral : String) : JsValue
  | str (s : String) : JsValue
  | arr (xs : List JsValue) : JsValue
  | obj (props : List (String × JsValue)) : JsValue

namespace JsValue

/-- The boolean coercion `ToBoolean`, as used by `!v`, `v || w`, `v && w`, `if (v)`. -/
def truthy : JsValue → Bool
  | undefined => false
  | null => false
  | bool b => b
  | num n => n != 0
  | frac _ => true
  | str s => s != ""
  | arr _ => true
  | obj _ => true

/-- The expression `a || b`. -/
def orElse (a b : JsValue) : JsValue :=
  if a.truthy then a else b

/-- The expression `a ?? b`. -/
def nullish (a b : JsValue) : JsValue :=
  match a with
  | undefined => b
  | null => b
  | v => v

/-- Own-property lookup in the property list of an object. -/
def lookup (name : String) : List (String × JsValue) → JsValue
  | [] => undefined
  | (k, v) :: rest => if k = name then v else lookup name rest

/-- The member access `v.name` for the property names this program reads (none of them
is defined on a prototype): it throws (`none`) on `undefined` and `null`, reads an own
property of an object, and is `undefined` on every other value. -/
def getProp (v : JsValue) (name : String) : Option JsValue :=
  match v with
  | undefined => none
  | null => none
  | obj props => some (lookup name props)
  | _ => some undefined

/-- The optional member access `v?.name`. -/
def getPropOpt (v : JsValue) (name : String) : JsValue :=
  match v with
  | obj props => lookup name props
  | _ => undefined

/-- The test `Array.isArray(v)`. -/
def isArray : JsValue → Bool
  | arr _ => true
  | _ => false

/-- The test `v !== "lit"` against a string literal. -/
def strictNeStr (v : JsValue) (lit : String) : Bool :=
  match v with
  | str s => s != lit
  | _ => true

/-- Whether an object has an own property of that name. -/
def hasKey (name : String) (props : List (String × JsValue)) : Bool :=
  props.any (fun p => p.1 == name)

mutual
/-- The string conversion `ToString`, as applied by template literals, by
`Number.parseInt` to its argument and by `new Error(message)`; `none` when it throws a
`TypeError`. An object is converted by `toString` and then `valueOf`: an own `toString`
property of a parsed object is never callable and `Object.prototype.valueOf` returns the
object, so the conversion throws; without such a property `Object.prototype.toString`
answers. An array is converted by `join`. -/
def toStr : JsValue → Option String
  | undefined => some "undefined"
  | null => some "null"
  | bool b => some (if b then "true" else "false")
  | num n => some (numberText n)
  | frac numeral => some numeral
  | str s => some s
  | arr xs => joinComma xs
  | obj props => if hasKey "toString" props then none else some "[object Object]"
/-- The result of `Array.prototype.join` with the separator `","`: `undefined` and `null`
elements give the empty string, the conversion of any other element may throw. -/
def joinComma : List JsValue → Option String
  | [] => some ""
  | [x] => elemStr x
  | x :: y :: rest =>
    match elemStr x, joinComma (y :: rest) with
    | some first, some others => some (first ++ "," ++ others)
    | _, _ => none
/-- The string of one array element inside `join`. -/
def elemStr : JsValue → Option String
  | undefined => some ""
  | null => some ""
  | bool b => some (if b then "true" else "false")
  | num n => some (numberText n)
  | frac numeral => some numeral
  | str s => some s
  | arr xs => joinComma xs
  | obj props => if hasKey "toString" props then none else some "[object Object]"
end

end JsValue

/-! ## Strings: `trim` and `Number.parseInt` -/

/-- The code points that `String.prototype.trim` removes: ECMAScript `WhiteSpace`
(TAB, VT, FF, ZWNBSP and the Unicode space separators) and `LineTerminator`. -/
def isJsWhitespace (c : Char) : Bool :=
  let n := c.toNat
  n == 0x09 || n == 0x0A || n == 0x0B || n == 0x0C || n == 0x0D || n == 0x20 ||
  n == 0xA0 || n == 0x1680 || (0x2000 ≤ n && n ≤ 0x200A) || n == 0x2028 ||
  n == 0x2029 || n == 0x202F || n == 0x205F || n == 0x3000 || n == 0xFEFF

/-- The method `String.prototype.trim`. -/
def jsTrim (s : String) : String :=
  String.mk ((s.toList.dropWhile isJsWhitespace).reverse.dropWhile isJsWhitespace).reverse

/-- The value of a decimal digit, `none` for any other character. -/
def digitValue (c : Char) : Option Nat :=
  if 48 ≤ c.toNat ∧ c.toNat ≤ 57 then some (c.toNat - 48) else none

/-- The longest prefix of decimal digits, read as a number; the flag tells whether at
least one digit was read. -/
def readDigits : List Char → Nat → Bool → Nat × Bool
  | [], acc, seen => (acc, seen)
  | c :: cs, acc, seen =>
    match digitValue c with
    | some d => readDigits cs (acc * 10 + d) true
    | none => (acc, seen)

/-- The call `Number.parseInt(s, 10)` on a string: leading white space is skipped, one
sign is accepted, then the longest run of decimal digits is read and whatever follows
is ignored. `none` is `NaN`. The integer is read exactly, also beyond its 20th digit (as
the specification permits and V8 does); its rounding to a number is left to
`numberText`. -/
def parseIntStr (s : String) : Option Int :=
  match s.toList.dropWhile isJsWhitespace with
  | [] => none
  | c :: r =>
    let negative := c = '-'
    let rest := if c = '-' ∨ c = '+' then r else c :: r
    match readDigits rest 0 false with
    | (_, false) => none
    | (n, true) => some (if negative then -(n : Int) else (n : Int))

/-- The call `Number.parseInt(v, 10)` on any value: the argument is first converted to
a string, which may throw (the outer `none`); the inner `none` is `NaN`, and `some n` is
the number nearest to the integer `n` that was read. -/
def parseInt (v : JsValue) : Option (Option Int) :=
  v.toStr.map parseIntStr

/-- The expression `parsed || 1500` on the result of `Number.parseInt`: `NaN` and `0` are
falsy. The value is the integer whose nearest number the radius is. -/
def radiusOrDefault (parsed : Option Int) : Int :=
  match parsed with
  | none => 1500
  | some n => if n = 0 then 1500 else n

/-! ## The search proxy (`src/app/api/places/route.js`) -/

/-- The constant `GOOGLE_TEXT_SEARCH_URL`. -/
def GOOGLE_TEXT_SEARCH_URL : String :=
  "https://maps.googleapis.com/maps/api/place/textsearch/json"

/-- The function `sanitizeQueryParam`: `typeof value === "string" ? value.trim() : ""`. -/
def sanitizeQueryParam (value : JsValue) : String :=
  match value with
  | .str s => jsTrim s
  | _ => ""

/-- The method `URLSearchParams.prototype.get`: the first value of that name, or `null`. -/
def paramsGet : List (String × String) → String → JsValue
  | [], _ => .null
  | (k, v) :: rest, name => if k = name then .str v else paramsGet rest name

/-- The method `URLSearchParams.prototype.set`: the first pair of that name takes the
value and the other pairs of that name are removed; without such a pair one is appended. -/
def paramsSet : List (String × String) → String → String → List (String × String)
  | [], name, value => [(name, value)]
  | (k, v) :: rest, name, value =>
    if k = name then (k, value) :: rest.filter (fun p => p.1 != name)
    else (k, v) :: paramsSet rest name value

/-- One call `fetch(GOOGLE_TEXT_SEARCH_URL + "?" + params.toString())`, recorded by its
endpoint and its parameters before serialisation. -/
structure UpstreamCall where
  url : String
  params : List (String × String)

/-- What the upstream `fetch` yields: the promise rejects (network error), or it resolves
to a response with its `ok` flag and the result of `response.json()` (`none` when that
promise rejects). -/
inductive UpstreamReply where
  | networkError : UpstreamReply
  | http (ok : Bool) (json : Option JsValue) : UpstreamReply

/-- How a handler ends: with `NextResponse.json(body, { status })`, or by rejecting with
an uncaught exception. -/
inductive Outcome where
  | respond (status : Nat) (body : JsValue) : Outcome
  | threw : Outcome

/-- The HTTP status of a handler's own response, if it produced one. -/
def Outcome.status : Outcome → Option Nat
  | .respond status _ => some status
  | .threw => none

/-- One run of a handler: the upstream calls it made, in order, and how it ended. -/
structure Run where
  calls : List UpstreamCall
  outcome : Outcome

/-- The response body `{ error: message }`. -/
def errorBody (message : JsValue) : JsValue :=
  .obj [("error", message)]

/-- The test `!process.env.GOOGLE_PLACES_API_KEY` on the environment entry, which is
`undefined` (`none`) or a string. -/
def keyMissing : Option String → Bool
  | none => true
  | some k => k == ""

/-- The handling of the decoded provider payload `data` (lines 50-60 of `POST`, 109-119
of `GET`); `none` when a member access on `data` or the template literal
`${data.status}`, which `||` evaluates only for a falsy `error_message`, throws. -/
def normalize (data : JsValue) : Option Outcome := do
  let status ← data.getProp "status"
  if status.strictNeStr "OK" && status.strictNeStr "ZERO_RESULTS" then
    let errorMessage ← data.getProp "error_message"
    if errorMessage.truthy then
      return .respond 502 (errorBody errorMessage)
    let statusText ← status.toStr
    return .respond 502 (errorBody (.str ("Google API error (" ++ statusText ++ ").")))
  let results ← data.getProp "results"
  let nextPageToken ← data.getProp "next_page_token"
  return .respond 200 (.obj [
    ("results", if results.isArray then results else .arr []),
    ("nextPageToken", nextPageToken.orElse .null)])

/-- The part both handlers share once `params` is built (lines 39-60 of `POST`, 98-119 of
`GET`): one `fetch`, the `response.ok` check, `response.json()` and the normalisation. -/
def forward (params : List (String × String)) (fetch : UpstreamCall → UpstreamReply) : Run :=
  let call : UpstreamCall := { url := GOOGLE_TEXT_SEARCH_URL, params := params }
  match fetch call with
  | .networkError => { calls := [call], outcome := .threw }
  | .http ok json =>
    if !ok then
      { calls := [call],
        outcome := .respond 502 (errorBody (.str "Unable to reach Google Places API.")) }
    else
      match json with
      | none => { calls := [call], outcome := .threw }
      | some data => { calls := [call], outcome := (normalize data).getD .threw }

/-- The handler `POST`. `requestJson` is the result of `request.json()` (`none` when it
rejects, which `.catch(() => ({}))` turns into the empty object), `apiKey` is
`process.env.GOOGLE_PLACES_API_KEY`. The handler rejects when `body.query` throws (line
11) and when `Number.parseInt(body.radius, 10)` throws (line 13), both before the two
checks. -/
def POST (requestJson : Option JsValue) (apiKey : Option String)
    (fetch : UpstreamCall → UpstreamReply) : Run :=
  let body := requestJson.getD (.obj [])
  match body.getProp "query", body.getProp "location", body.getProp "radius" with
  | some rawQuery, some rawLocation, some rawRadius =>
    let query := sanitizeQueryParam rawQuery
    let location := sanitizeQueryParam rawLocation
    match parseInt rawRadius with
    | none => { calls := [], outcome := .threw }
    | some parsed =>
      let radius := radiusOrDefault parsed
      if query = "" then
        { calls := [], outcome := .respond 400 (errorBody (.str "Search query is required.")) }
      else if keyMissing apiKey then
        { calls := [],
          outcome :=
            .respond 500 (errorBody (.str "Missing Google Places API key on the server.")) }
      else
        let params := [("query", query), ("key", apiKey.getD "")]
        let params :=
          if location ≠ "" then
            paramsSet (paramsSet params "location" location) "radius" (numberText radius)
          else params
        forward params fetch
  | _, _, _ => { calls := [], outcome := .threw }

/-- The handler `GET`. `searchParams` are the decoded pairs of the query string of
`request.url`. -/
def GET (searchParams : List (String × String)) (apiKey : Option String)
    (fetch : UpstreamCall → UpstreamReply) : Run :=
  let pageToken := sanitizeQueryParam (paramsGet searchParams "pageToken")
  let query := sanitizeQueryParam (paramsGet searchParams "query")
  let location := sanitizeQueryParam (paramsGet searchParams "location")
  match parseInt (paramsGet searchParams "radius") with
  | none => { calls := [], outcome := .threw }
  | some parsed =>
    let radius := radiusOrDefault parsed
    if query = "" then
      { calls := [], outcome := .respond 400 (errorBody (.str "Search query is required.")) }
    else if keyMissing apiKey then
      { calls := [],
        outcome :=
          .respond 500 (errorBody (.str "Missing Google Places API key on the server.")) }
    else
      let params := [("key", apiKey.getD "")]
      let params :=
        if pageToken ≠ "" then paramsSet params "pagetoken" pageToken
        else
          let params := paramsSet params "query" query
          if location ≠ "" then
            paramsSet (paramsSet params "location" location) "radius" (numberText radius)
          else params
      forward params fetch

/-- The field `body.name` of a `POST` request whose body admits member access
(`undefined` otherwise). -/
def postField (requestJson : Option JsValue) (name : String) : JsValue :=
  (requestJson.getD (.obj [])).getPropOpt name

/-! ## The search interface (`src/app/page.js`) -/

/-- The state `form`. `radius` is the number 1000 at first and the string value of the
chosen option once the select has changed it. -/
structure Form where
  query : String
  location : String
  radius : JsValue

/-- The state `status`. -/
structure Status where
  loading : Bool
  message : String

/-- One entry of the state `history`; `radius` holds `Number(form.radius)`, with `none`
for `NaN`. -/
structure HistoryEntry where
  query : String
  location : String
  radius : Option Int
  timestamp : String

/-- The five state cells of the component `Home`. -/
structure UiState where
  form : Form
  results : JsValue
  status : Status
  nextPageToken : JsValue
  history : List HistoryEntry

/-- The initial values given to `useState`. -/
def initialState : UiState :=
  { form := { query := "", location := "", radius := .num 1000 },
    results := .arr [],
    status := { loading := false, message := "" },
    nextPageToken := .null,
    history := [] }

/-- A digit string read in full as a number; `none` when a character is not a digit. -/
def allDigits : List Char → Nat → Option Nat
  | [], acc => some acc
  | c :: cs, acc =>
    match digitValue c with
    | some d => allDigits cs (acc * 10 + d)
    | none => none

/-- The conversion `Number(s)` of a string, for the literals the radius select produces:
white space is trimmed, the empty string is 0, an optionally signed decimal integer is
its value, and `none` is `NaN`. Other numeric literals (fractions, exponents, hexadecimal,
`Infinity`) are outside the embedding. -/
def strToNumber (s : String) : Option Int :=
  match (jsTrim s).toList with
  | [] => some 0
  | '-' :: c :: cs => (allDigits (c :: cs) 0).map (fun n => -(n : Int))
  | '+' :: c :: cs => (allDigits (c :: cs) 0).map (fun n => (n : Int))
  | cs => (allDigits cs 0).map (fun n => (n : Int))

/-- The conversion `Number(v)`; `none` is `NaN`. It is applied to `form.radius` only,
which holds the number 1000 or the string of a select option. The result type holds
integers only: a number that is not one (`frac`) and an array or object whose conversion
throws, none of which the form ever holds, are outside the embedding of this conversion,
like the fractional literals of `strToNumber`. -/
def toNumber : JsValue → Option Int
  | .undefined => none
  | .null => some 0
  | .bool b => some (if b then 1 else 0)
  | .num n => some n
  | .frac _ => none
  | .str s => strToNumber s
  | .arr xs => ((JsValue.arr xs).toStr.map strToNumber).getD none
  | .obj _ => none

/-- A request of the interface to its proxy: `fetch("/api/places", { method: "POST", body })`
with the value given to `JSON.stringify`, or `fetch("/api/places?" + params)`. -/
inductive ProxyRequest where
  | post (body : JsValue) : ProxyRequest
  | get (params : List (String × String)) : ProxyRequest

/-- What a `fetch` of the proxy yields: the promise rejects with an error carrying
`message` (transport error), or it resolves to a response with its `ok` flag and the
result of `response.json()` (`error message` when that promise rejects). -/
inductive ProxyReply where
  | rejected (message : String) : ProxyReply
  | http (ok : Bool) (json : Except String JsValue) : ProxyReply

/-- The message of the `TypeError` thrown when a value cannot be converted to a string
(the wording of V8). -/
def cannotConvertMessage : String :=
  "Cannot convert object to primitive value"

/-- The body of the `try` block up to the decoded payload: `await fetch`, the
`!response.ok` branch, which throws
`new Error(errorPayload?.error || fallback)` (or the `TypeError` of the string conversion
inside `new Error`), and `await response.json()`. The error case carries
`error.message`. -/
def awaitPayload (reply : ProxyReply) (fallback : String) : Except String JsValue :=
  match reply with
  | .rejected message => .error message
  | .http false json =>
    let errorPayload : JsValue :=
      match json with
      | .ok v => v
      | .error _ => .null
    .error
      (((errorPayload.getPropOpt "error").orElse (.str fallback)).toStr.getD
        cannotConvertMessage)
  | .http true (.error message) => .error message
  | .http true (.ok payload) => .ok payload

/-- The status set by a `catch` block:
`{ loading: false, message: error.message || "Unexpected error occurred." }`. -/
def failureStatus (message : String) : Status :=
  { loading := false,
    message := if message ≠ "" then message else "Unexpected error occurred." }

/-- The message of the `TypeError` thrown by a member access on `null` (the wording of
V8). -/
def nullReadMessage (name : String) : String :=
  "Cannot read properties of null (reading '" ++ name ++ "')"

/-- The value `JSON.stringify` writes for a number: `NaN` becomes `null`. -/
def numberJson : Option Int → JsValue
  | some n => .num n
  | none => .null

/-- The request `handleSubmit` sends. -/
def submitRequest (form : Form) : ProxyRequest :=
  .post (.obj [("query", .str form.query), ("location", .str form.location),
    ("radius", numberJson (toNumber form.radius))])

/-- The first actions of `handleSubmit`, before the `await`:
`setStatus({ loading: true, message: "" })`, `setResults([])`, `setNextPageToken(null)`. -/
def handleSubmitBegin (s : UiState) : UiState :=
  { s with
    status := { loading := true, message := "" },
    results := .arr [],
    nextPageToken := .null }

/-- The rest of `handleSubmit`, once the proxy has replied: `form` is the form captured by
the callback, `now` is `new Date().toISOString()`, `s` the state the updates apply to. -/
def handleSubmitSettle (form : Form) (reply : ProxyReply) (now : String) (s : UiState) :
    UiState :=
  match awaitPayload reply "Failed to fetch results." with
  | .error message => { s with status := failureStatus message }
  | .ok payload =>
    match payload.getProp "results", payload.getProp "nextPageToken" with
    | some results, some token =>
      { s with
        results := results,
        nextPageToken := token,
        history :=
          { query := form.query, location := form.location,
            radius := toNumber form.radius, timestamp := now } :: s.history.take 4,
        status := { loading := false, message := "" } }
    | _, _ => { s with status := failureStatus (nullReadMessage "results") }

/-- The callback `handleSubmit`. -/
def handleSubmit (s : UiState) (fetch : ProxyRequest → ProxyReply) (now : String) : UiState :=
  handleSubmitSettle s.form (fetch (submitRequest s.form)) now (handleSubmitBegin s)

/-- The elements a spread `...v` yields: those of an array, the code points of a string;
`none` when `v` is not iterable and the spread throws. -/
def spread : JsValue → Option (List JsValue)
  | .arr xs => some xs
  | .str s => some (s.toList.map (fun c => .str (String.mk [c])))
  | _ => none

/-- The parameters `fetchNextPage` builds inside its `try` block:
`new URLSearchParams({ pageToken: nextPageToken, query: form.query })`, then `location`
and `String(form.radius)` for a non-empty location; `none` when a string conversion
throws. -/
def nextPageParams (s : UiState) : Option (List (String × String)) := do
  let pageToken ← s.nextPageToken.toStr
  let params := [("pageToken", pageToken), ("query", s.form.query)]
  if s.form.location ≠ "" then
    let radius ← s.form.radius.toStr
    return paramsSet (paramsSet params "location" s.form.location) "radius" radius
  return params

/-- The request `fetchNextPage` sends, once its parameters are built. -/
def nextPageRequest (s : UiState) : ProxyRequest :=
  .get ((nextPageParams s).getD [])

/-- The callback `fetchNextPage`. A `TypeError` thrown while the parameters are built is
caught like a failed request. The result is `none` when the state updater
`(prev) => [...prev, ...payload.results]` throws, which fails the render. -/
def fetchNextPage (s : UiState) (fetch : ProxyRequest → ProxyReply) : Option UiState :=
  if !s.nextPageToken.truthy then some s
  else if (nextPageParams s).isNone then
    some { s with status := failureStatus cannotConvertMessage }
  else
    match awaitPayload (fetch (nextPageRequest s)) "Failed to fetch next page." with
    | .error message => some { s with status := failureStatus message }
    | .ok payload =>
      match payload.getProp "results", payload.getProp "nextPageToken" with
      | some more, some token =>
        match spread s.results, spread more with
        | some prev, some added =>
          some { s with
            results := .arr (prev ++ added),
            nextPageToken := token,
            status := { loading := false, message := "" } }
        | _, _ => none
      | _, _ => none

/-- The count shown as `Results ({results.length})` for an array ResultSet. -/
def resultCount (s : UiState) : Option Nat :=
  match s.results with
  | .arr xs => some xs.length
  | _ => none

/-- A state whose ResultSet is empty and whose ContinuationToken is absent. -/
def Cleared (s : UiState) : Prop :=
  s.results = .arr [] ∧ s.nextPageToken = .null

/-- One submission: the form as the user left it, the reply of the proxy and the clock. -/
structure Submission where
  form : Form
  reply : ProxyReply
  now : String

/-- The form is edited (`handleInputChange`) and then submitted. -/
def submit (s : UiState) (x : Submission) : UiState :=
  handleSubmit { s with form := x.form } (fun _ => x.reply) x.now

/-- Submissions made one after the other. -/
def runSubmissions (s : UiState) (xs : List Submission) : UiState :=
  xs.foldl submit s

/-- A submission succeeds when the proxy answers with a success status and a JSON payload
that admits member access. -/
def Submission.succeeds (x : Submission) : Prop :=
  ∃ payload results, x.reply = .http true (.ok payload) ∧
    payload.getProp "results" = some results

/-- The history entry a successful submission creates. -/
def entryOf (x : Submission) : HistoryEntry :=
  { query := x.form.query, location := x.form.location,
    radius := toNumber x.form.radius, timestamp := x.now }

/-- A successful submission of the query `q` made at the time `now`, answered with one
place and no further page. -/
def sampleSubmission (q now : String) : Submission :=
  { form := { query := q, location := "", radius := .str "2000" },
    reply := .http true (.ok (.obj [("results", .arr [.obj [("name", .str q)]]),
      ("nextPageToken", .null)])),
    now := now }

/-! ## The CSV export (the `Export CSV` button of `src/app/page.js`) -/

/-- The method `String.prototype.split` with a one-character separator. -/
def splitOn (sep : Char) : List Char → List (List Char)
  | [] => [[]]
  | c :: cs =>
    if c = sep then [] :: splitOn sep cs
    else
      match splitOn sep cs with
      | [] => [[c]]
      | word :: words => (c :: word) :: words

/-- The method `Array.prototype.join` on an array of strings. -/
def joinWith (sep : String) : List String → String
  | [] => ""
  | [x] => x
  | x :: y :: rest => x ++ sep ++ joinWith sep (y :: rest)

/-- The expression `word.charAt(0).toUpperCase() + word.slice(1)`. `toUpperCase` is the
case mapping of `String.prototype.toUpperCase` on one character. `charAt(0)` is the first
UTF-16 code unit: of a code point beyond the basic plane it is a lone surrogate, which the
mapping leaves as it is, so such a word is unchanged. -/
def capitalize (toUpperCase : Char → String) (word : List Char) : String :=
  match word with
  | [] => ""
  | c :: rest =>
    if c.toNat < 0x10000 then toUpperCase c ++ String.mk rest else String.mk (c :: rest)

/-- The case mapping of the ASCII letters, on which `toUpperCase` agrees with it. -/
def asciiUpperCase (c : Char) : String :=
  String.mk [c.toUpper]

/-- The callback of `types.map` in `formatTypes`; `none` when `type.split` is not a
function, that is when `type` is not a string, and the call throws. -/
def typeLabel (toUpperCase : Char → String) (type : JsValue) : Option String :=
  match type with
  | .str s => some (joinWith " " ((splitOn '_' s.toList).map (capitalize toUpperCase)))
  | _ => none

/-- The method `Array.prototype.map` with a callback that may throw. -/
def mapOption {α β : Type} (f : α → Option β) : List α → Option (List β)
  | [] => some []
  | x :: xs =>
    match f x, mapOption f xs with
    | some y, some ys => some (y :: ys)
    | _, _ => none

/-- The function `formatTypes`. -/
def formatTypes (toUpperCase : Char → String) (types : JsValue) : Option String :=
  match types with
  | .arr xs => (mapOption (typeLabel toUpperCase) xs).map (joinWith ", ")
  | _ => some "—"

/-- The function `extractPhone`:
`place?.formatted_phone_number || place?.international_phone_number || ""`. -/
def extractPhone (place : JsValue) : JsValue :=
  ((place.getPropOpt "formatted_phone_number").orElse
    (place.getPropOpt "international_phone_number")).orElse (.str "")

/-- The function `buildMapsLink`; `none` when the template literal `${place.place_id}`
throws. -/
def buildMapsLink (place : JsValue) : Option JsValue :=
  if !(place.getPropOpt "place_id").truthy then some .null
  else
    (place.getPropOpt "place_id").toStr.map
      (fun id => .str ("https://www.google.com/maps/place/?q=place_id:" ++ id))

/-- The replacement `.replace(/"/g, '""')`. -/
def doubleQuotes : List Char → List Char
  | [] => []
  | c :: cs => if c = '"' then '"' :: '"' :: doubleQuotes cs else c :: doubleQuotes cs

/-- The callback of `row.map` in the export: the value is converted to a string by the
template literal `${value ?? ""}`, its double quotes are doubled and the result is put
between double quotes; `none` when the conversion throws. -/
def csvField (value : JsValue) : Option String := do
  let text ← (value.nullish (.str "")).toStr
  let stringValue := String.mk (doubleQuotes text.toList)
  return "\"" ++ stringValue ++ "\""

/-- The callback of `results.map` in the export: the data row of one place; `none` when a
member access on `place`, `formatTypes`, `buildMapsLink` or the string conversion of a
field throws. -/
def csvRow (toUpperCase : Char → String) (place : JsValue) : Option String := do
  let phone := extractPhone place
  let name ← place.getProp "name"
  let address ← place.getProp "formatted_address"
  let rating ← place.getProp "rating"
  let total ← place.getProp "user_ratings_total"
  let types ← place.getProp "types"
  let typesText ← formatTypes toUpperCase types
  let mapsLink ← buildMapsLink place
  let row := [name.orElse (.str ""), address.orElse (.str ""), phone,
    rating.nullish (.str ""), total.nullish (.str ""), .str typesText,
    mapsLink.orElse (.str "")]
  let fields ← mapOption csvField row
  return joinWith "," fields

/-- The array `csvHeader`. -/
def csvHeader : List String :=
  ["Name", "Formatted Address", "Phone", "Rating", "User Ratings Total", "Types", "Maps URL"]

/-- The text given to the `Blob`: `[csvHeader.join(","), ...csvRows].join("\n")`; `none`
when `results.map` or a row throws. -/
def csvDocument (toUpperCase : Char → String) (results : JsValue) : Option String :=
  match results with
  | .arr places =>
    (mapOption (csvRow toUpperCase) places).map
      (fun csvRows => joinWith "\n" (joinWith "," csvHeader :: csvRows))
  | _ => none

/-- The first argument given to `new Blob(blobParts, options)`: a string, or an array of
strings. -/
inductive BlobArgument where
  | text (s : String) : BlobArgument
  | parts (xs : List String) : BlobArgument

/-- The constructor `new Blob(blobParts, options)`, by the contents of the blob.
`blobParts` is converted to a sequence, and that conversion throws a `TypeError` (`none`)
for a value that is not an object, as a string is. -/
def newBlob : BlobArgument → Option String
  | .text _ => none
  | .parts xs => some (String.join xs)

/-- The file the export offers: the `download` attribute of the link, the `type` of the
blob and its contents. -/
structure Download where
  filename : String
  mimeType : String
  contents : String

/-- The `onClick` handler of the `Export CSV` button (lines 278-320): the rows are built,
the document is joined into one string, and that string is passed to `new Blob` as its
first argument; `none` when the handler throws, in which case no file is offered. -/
def exportCsv (toUpperCase : Char → String) (results : JsValue) : Option Download := do
  let text ← csvDocument toUpperCase results
  let contents ← newBlob (.text text)
  return { filename := "google-business-results.csv",
           mimeType := "text/csv;charset=utf-8;",
           contents := contents }

/-- The properties of a place without `rating` and `user_ratings_total`, whose name holds
double quotes and a comma. -/
def unratedPlace : List (String × JsValue) :=
  [("place_id", .str "abc"), ("name", .str "Joe \"J\" Cafe, Inc"),
   ("formatted_address", .str "1 Main St"),
   ("types", .arr [.str "cafe", .str "point_of_interest"])]

/-- The properties of a place with both phone numbers, a rating that is not an integer
and a review count. -/
def ratedPlace : List (String × JsValue) :=
  [("place_id", .str "xyz"), ("name", .str "Bar"),
   ("formatted_address", .str "2 High St"),
   ("formatted_phone_number", .str "(01) 234"),
   ("international_phone_number", .str "+1 234"),
   ("rating", .frac "4.5"), ("user_ratings_total", .num 120),
   ("types", .arr [.str "bar"])]

/-! ### The reading of a quoted CSV row -/

/-- A field value as the export format describes it: wrapped in double quotes, with
every double quote inside it doubled. -/
def quoted (text : String) : String :=
  "\"" ++ String.mk (text.toList.flatMap (fun c => if c = '"' then ['"', '"'] else [c])) ++
    "\""

/-- The property `types` of a place as the data model describes it: absent, or a list of
category tags, each a string. -/
def TagList (types : JsValue) : Prop :=
  match types with
  | .arr xs => ∀ x ∈ xs, ∃ s, x = .str s
  | _ => True

/-- A CSV reader after the opening quote of a field: the text up to the closing quote,
with each doubled quote read as one, and what follows the closing quote. -/
def readQuoted : List Char → Option (List Char × List Char)
  | [] => none
  | [c] => if c = '"' then some ([], []) else none
  | c :: d :: rest =>
    if c = '"' then
      if d = '"' then (readQuoted rest).map (fun r => ('"' :: r.1, r.2))
      else some ([], d :: rest)
    else (readQuoted (d :: rest)).map (fun r => (c :: r.1, r.2))

/-- A CSV reader for one row of quoted fields separated by commas; `fuel` bounds the
number of fields read. -/
def readRow : Nat → List Char → Option (List String)
  | 0, _ => none
  | fuel + 1, input =>
    match input with
    | '"' :: inner =>
      match readQuoted inner with
      | some (field, []) => some [String.mk field]
      | some (field, ',' :: more) => (readRow fuel more).map (fun fs => String.mk field :: fs)
      | _ => none
    | _ => none

/-- The fields of a CSV row of quoted fields; `none` when it is not one. -/
def parseCsvRow (row : String) : Option (List String) :=
  readRow (row.length + 1) row.toList

end Places

namespace Places

/-! ## Properties of numerals -/

theorem digitValue_digitChar (d : Nat) (h : d < 10) : digitValue (Nat.digitChar d) = some d := by
  interval_cases d <;> decide

theorem readDigits_cons_digit (d : Nat) (h : d < 10) (rest : List Char) (acc : Nat)
    (seen : Bool) :
    readDigits (Nat.digitChar d :: rest) acc seen = readDigits rest (acc * 10 + d) true := by
  simp [readDigits, digitValue_digitChar d h]

/-- Reading the digits that `Nat.toDigitsCore` writes in front of `ds` adds the number
written. -/
theorem readDigits_toDigitsCore (fuel : Nat) :
    ∀ (n : Nat) (ds : List Char), n < fuel →
      ∃ l : List Char, Nat.toDigitsCore 10 fuel n ds = l ++ ds ∧
        ∀ (rest : List Char) (acc : Nat) (seen : Bool),
          readDigits (l ++ rest) acc seen = readDigits rest (acc * 10 ^ l.length + n) true := by
  induction fuel with
  | zero => intro n ds h; omega
  | succ fuel ih =>
    intro n ds h
    by_cases h0 : n / 10 = 0
    · refine ⟨[Nat.digitChar (n % 10)], by simp [Nat.toDigitsCore, h0], ?_⟩
      intro rest acc seen
      have hn : n % 10 = n := Nat.mod_eq_of_lt (by omega)
      simp only [List.singleton_append, List.length_singleton, pow_one]
      rw [readDigits_cons_digit _ (Nat.mod_lt _ (by decide)), hn]
    · obtain ⟨l, hl, hread⟩ := ih (n / 10) (Nat.digitChar (n % 10) :: ds) (by omega)
      refine ⟨l ++ [Nat.digitChar (n % 10)], by simp [Nat.toDigitsCore, h0, hl], ?_⟩
      intro rest acc seen
      rw [List.append_assoc, hread, List.singleton_append,
        readDigits_cons_digit _ (Nat.mod_lt _ (by decide))]
      congr 1
      simp only [List.length_append, List.length_singleton, pow_succ]
      have := Nat.div_add_mod n 10
      nlinarith [this]

theorem readDigits_repr (n : Nat) :
    ∃ c rest, (Nat.repr n).toList = c :: rest ∧ (digitValue c).isSome = true ∧
      readDigits (c :: rest) 0 false = (n, true) := by
  obtain ⟨l, hl, hread⟩ := readDigits_toDigitsCore (n + 1) n [] (by omega)
  have hrepr : (Nat.repr n).toList = l := by
    simp [Nat.repr, Nat.toDigits, hl, List.asString, String.toList]
  have hval : readDigits l 0 false = (n, true) := by
    have := hread [] 0 false
    simpa [readDigits] using this
  cases l with
  | nil => simp [readDigits] at hval
  | cons c rest =>
    refine ⟨c, rest, hrepr, ?_, hval⟩
    cases hc : digitValue c with
    | some d => rfl
    | none => simp [readDigits, hc] at hval

theorem not_whitespace_of_digit (c : Char) (h : (digitValue c).isSome = true) :
    isJsWhitespace c = false ∧ c ≠ '-' ∧ c ≠ '+' := by
  unfold digitValue at h
  by_cases hc : 48 ≤ c.toNat ∧ c.toNat ≤ 57
  · refine ⟨?_, ?_, ?_⟩
    · unfold isJsWhitespace
      simp only [Bool.or_eq_false_iff, beq_eq_false_iff_ne, ne_eq, Bool.and_eq_false_iff,
        decide_eq_false_iff_not]
      refine ⟨⟨⟨⟨⟨⟨⟨⟨⟨⟨⟨⟨⟨⟨?_, ?_⟩, ?_⟩, ?_⟩, ?_⟩, ?_⟩, ?_⟩, ?_⟩, ?_⟩, ?_⟩, ?_⟩, ?_⟩, ?_⟩, ?_⟩, ?_⟩ <;>
        omega
    · intro h'; rw [h'] at hc; revert hc; decide
    · intro h'; rw [h'] at hc; revert hc; decide
  · simp [hc] at h

theorem parseIntStr_of_chars (s : String) (c : Char) (rest : List Char)
    (hs : s.toList = c :: rest) (hws : isJsWhitespace c = false) :
    parseIntStr s =
      match readDigits (if c = '-' ∨ c = '+' then rest else c :: rest) 0 false with
      | (_, false) => none
      | (n, true) => some (if c = '-' then -(n : Int) else (n : Int)) := by
  unfold parseIntStr
  rw [hs]
  simp only [List.dropWhile, hws]

theorem parseIntStr_natRepr (n : Nat) : parseIntStr (Nat.repr n) = some (n : Int) := by
  obtain ⟨c, rest, hlist, hdigit, hread⟩ := readDigits_repr n
  obtain ⟨hws, hminus, hplus⟩ := not_whitespace_of_digit c hdigit
  rw [parseIntStr_of_chars _ c rest hlist hws]
  simp [hminus, hplus, hread]

theorem parseIntStr_neg_natRepr (n : Nat) :
    parseIntStr ("-" ++ Nat.repr n) = some (-(n : Int)) := by
  obtain ⟨c, rest, hlist, hdigit, hread⟩ := readDigits_repr n
  have hl : ("-" ++ Nat.repr n).toList = '-' :: (c :: rest) := by
    rw [← hlist]
    simp [String.toList]
  rw [parseIntStr_of_chars _ '-' (c :: rest) hl (by decide)]
  simp [hread]

/-- Reading the decimal numeral of an integer gives the integer back. -/
theorem parseIntStr_toString (n : Int) : parseIntStr (toString n) = some n := by
  cases n with
  | ofNat m => exact parseIntStr_natRepr m
  | negSucc m => exact parseIntStr_neg_natRepr (m + 1)

theorem naturalText_exact (m : Nat) (h : m < 2 ^ 53) : naturalText m = toString m := by
  unfold naturalText roundToDouble
  rw [if_pos h]
  show doubleText m = toString m
  unfold doubleText
  rw [if_pos h]

/-- Below `2 ^ 53` the text of a number is the decimal numeral of the integer. -/
theorem numberText_exact (n : Int) (h : n.natAbs < 2 ^ 53) : numberText n = toString n := by
  cases n with
  | ofNat m =>
    have hneg : ¬ (Int.ofNat m < 0) := by simp
    unfold numberText
    rw [if_neg hneg]
    exact naturalText_exact m h
  | negSucc m =>
    have hneg : Int.negSucc m < 0 := Int.negSucc_lt_zero m
    unfold numberText
    rw [if_pos hneg, naturalText_exact _ h]
    rfl

/-! ## Properties of the search proxy -/

theorem body_obj_of_field {requestJson : Option JsValue} {name : String}
    (h : sanitizeQueryParam (postField requestJson name) ≠ "") :
    ∃ props, requestJson.getD (.obj []) = .obj props := by
  unfold postField at h
  cases hb : requestJson.getD (.obj []) with
  | obj props => exact ⟨props, rfl⟩
  | _ => simp [hb, JsValue.getPropOpt, sanitizeQueryParam] at h

theorem keyMissing_some {k : String} (hk : k ≠ "") : keyMissing (some k) = false := by
  simp [keyMissing, hk]

/-- A value of `searchParams.get`, a string or `null`, always converts to a string. -/
theorem paramsGet_toStr (searchParams : List (String × String)) (name : String) :
    ∃ text, (paramsGet searchParams name).toStr = some text := by
  induction searchParams with
  | nil => exact ⟨"null", rfl⟩
  | cons p rest ih =>
    obtain ⟨k, v⟩ := p
    by_cases h : k = name
    · exact ⟨v, by simp [paramsGet, h, JsValue.toStr]⟩
    · simpa [paramsGet, h] using ih

/-- A `POST` request that passes both validations and whose radius converts to a string
is forwarded with the parameters `query`, `key` and, for a non-empty trimmed location,
`location` and `radius`. -/
theorem POST_forward (requestJson : Option JsValue) (k radiusText : String)
    (fetch : UpstreamCall → UpstreamReply)
    (hq : sanitizeQueryParam (postField requestJson "query") ≠ "") (hk : k ≠ "")
    (hr : (postField requestJson "radius").toStr = some radiusText) :
    POST requestJson (some k) fetch =
      forward
        (if sanitizeQueryParam (postField requestJson "location") ≠ "" then
          [("query", sanitizeQueryParam (postField requestJson "query")), ("key", k),
           ("location", sanitizeQueryParam (postField requestJson "location")),
           ("radius", numberText (radiusOrDefault (parseIntStr radiusText)))]
         else [("query", sanitizeQueryParam (postField requestJson "query")), ("key", k)])
        fetch := by
  obtain ⟨props, hb⟩ := body_obj_of_field hq
  unfold postField at hq hr ⊢
  rw [hb] at hq hr ⊢
  simp only [JsValue.getPropOpt] at hq hr ⊢
  unfold POST
  simp only [hb, JsValue.getProp, parseInt, hr, Option.map_some', keyMissing_some hk,
    if_neg hq, Option.getD_some]
  by_cases hl : sanitizeQueryParam (JsValue.lookup "location" props) = ""
  · simp [hl]
  · simp [hl, paramsSet]

/-- A `GET` request that passes both validations is forwarded with `key` and either
`pagetoken` alone or `query` and, for a non-empty trimmed location, `location` and
`radius`. -/
theorem GET_forward (searchParams : List (String × String)) (k radiusText : String)
    (fetch : UpstreamCall → UpstreamReply)
    (hq : sanitizeQueryParam (paramsGet searchParams "query") ≠ "") (hk : k ≠ "")
    (hr : (paramsGet searchParams "radius").toStr = some radiusText) :
    GET searchParams (some k) fetch =
      forward
        (if sanitizeQueryParam (paramsGet searchParams "pageToken") ≠ "" then
          [("key", k), ("pagetoken", sanitizeQueryParam (paramsGet searchParams "pageToken"))]
         else if sanitizeQueryParam (paramsGet searchParams "location") ≠ "" then
          [("key", k), ("query", sanitizeQueryParam (paramsGet searchParams "query")),
           ("location", sanitizeQueryParam (paramsGet searchParams "location")),
           ("radius", numberText (radiusOrDefault (parseIntStr radiusText)))]
         else [("key", k), ("query", sanitizeQueryParam (paramsGet searchParams "query"))])
        fetch := by
  unfold GET
  simp only [parseInt, hr, Option.map_some', keyMissing_some hk, if_neg hq, Option.getD_some]
  by_cases hp : sanitizeQueryParam (paramsGet searchParams "pageToken") = ""
  · by_cases hl : sanitizeQueryParam (paramsGet searchParams "location") = ""
    · simp [hp, hl, paramsSet]
    · simp [hp, hl, paramsSet]
  · simp [hp, paramsSet]

/-- A `POST` request whose body is not `null`, whose radius converts to a string and whose
query is missing, not a string or trims to the empty string is answered 400 without any
upstream call. -/
theorem POST_empty_query (requestJson : Option JsValue) (apiKey : Option String)
    (fetch : UpstreamCall → UpstreamReply) (radiusText : String)
    (hb : ∀ v, requestJson = some v → v ≠ .null ∧ v ≠ .undefined)
    (hr : (postField requestJson "radius").toStr = some radiusText)
    (hq : sanitizeQueryParam (postField requestJson "query") = "") :
    POST requestJson apiKey fetch =
      { calls := [], outcome := .respond 400 (errorBody (.str "Search query is required.")) } := by
  unfold postField at hq hr
  unfold POST
  cases requestJson with
  | none =>
    simp [JsValue.getProp, JsValue.lookup, sanitizeQueryParam, parseInt, JsValue.toStr]
  | some v =>
    have hv := hb v rfl
    cases v with
    | undefined => exact absurd rfl hv.2
    | null => exact absurd rfl hv.1
    | obj props =>
      simp only [Option.getD_some, JsValue.getPropOpt] at hq hr
      simp [JsValue.getProp, hq, parseInt, hr]
    | _ => simp [JsValue.getProp, sanitizeQueryParam, parseInt, JsValue.toStr]

/-- A `GET` request whose query is missing or trims to the empty string is answered 400
without any upstream call. -/
theorem GET_empty_query (searchParams : List (String × String)) (apiKey : Option String)
    (fetch : UpstreamCall → UpstreamReply)
    (hq : sanitizeQueryParam (paramsGet searchParams "query") = "") :
    GET searchParams apiKey fetch =
      { calls := [], outcome := .respond 400 (errorBody (.str "Search query is required.")) } := by
  obtain ⟨text, ht⟩ := paramsGet_toStr searchParams "radius"
  unfold GET
  simp [hq, parseInt, ht]

theorem getProp_of_some {data v : JsValue} {name : String} (h : data.getProp name = some v)
    (other : String) : data.getProp other = some (data.getPropOpt other) := by
  cases data <;> simp [JsValue.getProp, JsValue.getPropOpt] at h ⊢

theorem strictNeStr_of_ne {st : JsValue} {lit : String} (h : st ≠ .str lit) :
    st.strictNeStr lit = true := by
  cases st <;> simp [JsValue.strictNeStr]
  intro hs
  exact h (by rw [hs])

/-- Every forwarded request makes exactly one upstream call, with the given parameters. -/
theorem forward_calls (params : List (String × String)) (fetch : UpstreamCall → UpstreamReply) :
    (forward params fetch).calls = [{ url := GOOGLE_TEXT_SEARCH_URL, params := params }] := by
  unfold forward
  cases h : fetch { url := GOOGLE_TEXT_SEARCH_URL, params := params } with
  | networkError => simp [h]
  | http ok json => cases ok <;> cases json <;> simp [h]

theorem forward_not_ok (params : List (String × String)) (fetch : UpstreamCall → UpstreamReply)
    (hf : ∀ c, ∃ json, fetch c = .http false json) :
    forward params fetch =
      { calls := [{ url := GOOGLE_TEXT_SEARCH_URL, params := params }],
        outcome := .respond 502 (errorBody (.str "Unable to reach Google Places API.")) } := by
  obtain ⟨json, hj⟩ := hf { url := GOOGLE_TEXT_SEARCH_URL, params := params }
  simp [forward, hj]

theorem forward_ok (params : List (String × String)) (fetch : UpstreamCall → UpstreamReply)
    (data : JsValue) (hf : ∀ c, fetch c = .http true (some data)) :
    (forward params fetch).outcome = (normalize data).getD .threw := by
  simp [forward, hf]

/-- An error status with a truthy `error_message` is answered with that message. -/
theorem normalize_error_message {data st : JsValue} (hst : data.getProp "status" = some st)
    (hOK : st ≠ .str "OK") (hZero : st ≠ .str "ZERO_RESULTS")
    (hm : (data.getPropOpt "error_message").truthy = true) :
    normalize data = some (.respond 502 (errorBody (data.getPropOpt "error_message"))) := by
  simp [normalize, hst, getProp_of_some hst "error_message", strictNeStr_of_ne hOK,
    strictNeStr_of_ne hZero, hm]

/-- An error status with a falsy `error_message` is answered with the synthesized text,
when the status converts to a string. -/
theorem normalize_error_status {data st : JsValue} {statusText : String}
    (hst : data.getProp "status" = some st)
    (hOK : st ≠ .str "OK") (hZero : st ≠ .str "ZERO_RESULTS")
    (hm : (data.getPropOpt "error_message").truthy = false)
    (htext : st.toStr = some statusText) :
    normalize data = some (.respond 502 (errorBody
      (.str ("Google API error (" ++ statusText ++ ").")))) := by
  simp [normalize, hst, getProp_of_some hst "error_message", strictNeStr_of_ne hOK,
    strictNeStr_of_ne hZero, hm, htext]

theorem normalize_success {data st : JsValue} (hst : data.getProp "status" = some st)
    (hOk : st = .str "OK" ∨ st = .str "ZERO_RESULTS") :
    normalize data = some (.respond 200 (.obj [
      ("results", if (data.getPropOpt "results").isArray then data.getPropOpt "results"
        else .arr []),
      ("nextPageToken", (data.getPropOpt "next_page_token").orElse .null)])) := by
  rcases hOk with h | h <;>
    simp [normalize, hst, h, getProp_of_some hst "results",
      getProp_of_some hst "next_page_token", JsValue.strictNeStr]

theorem orElse_null_ne_empty (v : JsValue) : v.orElse .null ≠ .str "" := by
  unfold JsValue.orElse
  by_cases h : v.truthy = true
  · rw [if_pos h]
    intro hv
    rw [hv] at h
    simp [JsValue.truthy] at h
  · rw [if_neg h]
    intro hv
    cases hv

/-- For a non-success HTTP status of the provider, every request that passes validation
(and, for `POST`, whose radius converts to a string) is answered 502 "Unable to reach
Google Places API.". -/
theorem upstream_not_ok_502 (requestJson : Option JsValue)
    (searchParams : List (String × String)) (k radiusText : String)
    (fetch : UpstreamCall → UpstreamReply)
    (hPost : sanitizeQueryParam (postField requestJson "query") ≠ "")
    (hRadius : (postField requestJson "radius").toStr = some radiusText)
    (hGet : sanitizeQueryParam (paramsGet searchParams "query") ≠ "") (hk : k ≠ "")
    (hf : ∀ c, ∃ json, fetch c = .http false json) :
    (POST requestJson (some k) fetch).outcome =
      .respond 502 (errorBody (.str "Unable to reach Google Places API.")) ∧
    (GET searchParams (some k) fetch).outcome =
      .respond 502 (errorBody (.str "Unable to reach Google Places API.")) := by
  obtain ⟨text, ht⟩ := paramsGet_toStr searchParams "radius"
  constructor
  · rw [POST_forward requestJson k radiusText fetch hPost hk hRadius,
      forward_not_ok _ fetch hf]
  · rw [GET_forward searchParams k text fetch hGet hk ht, forward_not_ok _ fetch hf]

/-- A `POST` whose radius is an object with an own `toString` key makes
`Number.parseInt(body.radius, 10)` throw before both checks: the handler rejects without a
response of its own, with or without a query and a credential. -/
theorem POST_radius_unconvertible_throws :
    POST (some (.obj [("query", .str "cafe"), ("radius", .obj [("toString", .num 1)])]))
      none (fun _ => .networkError) = { calls := [], outcome := .threw } ∧
    POST (some (.obj [("radius", .arr [.obj [("toString", .num 1)]])]))
      (some "k") (fun _ => .networkError) = { calls := [], outcome := .threw } := by
  constructor <;> rfl

/-- Beyond `2 ^ 53` the radius sent is the text of the rounded number:
9007199254740993 is sent as "9007199254740992" and a numeral of 24 digits as "1e+23". -/
theorem POST_large_radius_rounds :
    (POST (some (.obj [("query", .str "cafe"), ("location", .str "1,2"),
        ("radius", .num 9007199254740993)]))
      (some "k") (fun _ => .networkError)).calls.map UpstreamCall.params =
      [[("query", "cafe"), ("key", "k"), ("location", "1,2"),
        ("radius", "9007199254740992")]] ∧
    (POST (some (.obj [("query", .str "cafe"), ("location", .str "1,2"),
        ("radius", .str "100000000000000000000000")]))
      (some "k") (fun _ => .networkError)).calls.map UpstreamCall.params =
      [[("query", "cafe"), ("key", "k"), ("location", "1,2"), ("radius", "1e+23")]] := by
  decide!

/-! ### The claims about the proxy -/

/-- C1 (failing input): a `POST` whose JSON body is the literal `null` has no query, yet
the handler does not answer 400: the member access `body.query` throws and the handler
rejects without a response of its own (and without an upstream call), whatever the
credential. -/
theorem POST_null_body_throws (apiKey : Option String) (fetch : UpstreamCall → UpstreamReply) :
    POST (some .null) apiKey fetch = { calls := [], outcome := .threw } ∧
    (POST (some .null) apiKey fetch).outcome.status ≠ some 400 := by
  constructor
  · rfl
  · simp [POST, JsValue.getProp, Outcome.status]

/-- C2 (counterexample): with the credential unset, a `GET` request without a query is
answered 400, not 500. -/
theorem GET_no_query_no_key_is_400 :
    (GET [] none (fun _ => .networkError)).outcome.status = some 400 ∧
    (GET [] none (fun _ => .networkError)).outcome.status ≠ some 500 := by
  decide

/-- C2 (amended): for every request, `POST` or `GET`, whose trimmed query is non-empty
and, for `POST`, whose radius is a value that converts to a string, made while the
credential is unset, the handler answers 500 with the error text "Missing Google Places
API key on the server." and makes no upstream call. -/
theorem missing_key_500 (requestJson : Option JsValue) (searchParams : List (String × String))
    (fetch : UpstreamCall → UpstreamReply) (radiusText : String)
    (hPost : sanitizeQueryParam (postField requestJson "query") ≠ "")
    (hRadius : (postField requestJson "radius").toStr = some radiusText)
    (hGet : sanitizeQueryParam (paramsGet searchParams "query") ≠ "") :
    POST requestJson none fetch =
      { calls := [],
        outcome := .respond 500
          (errorBody (.str "Missing Google Places API key on the server.")) } ∧
    GET searchParams none fetch =
      { calls := [],
        outcome := .respond 500
          (errorBody (.str "Missing Google Places API key on the server.")) } := by
  constructor
  · obtain ⟨props, hb⟩ := body_obj_of_field hPost
    unfold postField at hPost hRadius
    rw [hb] at hPost hRadius
    simp only [JsValue.getPropOpt] at hPost hRadius
    unfold POST
    simp [hb, JsValue.getProp, keyMissing, hPost, parseInt, hRadius]
  · obtain ⟨text, ht⟩ := paramsGet_toStr searchParams "radius"
    unfold GET
    simp [keyMissing, hGet, parseInt, ht]

theorem missing_key_500_witness :
    POST (some (.obj [("query", .str " cafe "), ("location", .str "1,2"),
        ("radius", .num 2000)])) none (fun _ => .networkError) =
      { calls := [],
        outcome := .respond 500
          (errorBody (.str "Missing Google Places API key on the server.")) } ∧
    GET [("query", "cafe"), ("pageToken", "t")] none (fun _ => .networkError) =
      { calls := [],
        outcome := .respond 500
          (errorBody (.str "Missing Google Places API key on the server.")) } :=
  missing_key_500
    (some (.obj [("query", .str " cafe "), ("location", .str "1,2"), ("radius", .num 2000)]))
    [("query", "cafe"), ("pageToken", "t")] (fun _ => .networkError) "2000"
    (by decide) (by decide) (by decide)

/-- C3: for every `GET` request with a non-empty trimmed query, a configured credential and
a non-empty trimmed `pageToken`, the handler makes exactly one upstream call, whose
parameters are exactly `key` (the credential) and `pagetoken` (the trimmed token); it
carries no `query`, `location` or `radius` parameter. -/
theorem GET_page_token_params (searchParams : List (String × String)) (k : String)
    (fetch : UpstreamCall → UpstreamReply)
    (hq : sanitizeQueryParam (paramsGet searchParams "query") ≠ "") (hk : k ≠ "")
    (hp : sanitizeQueryParam (paramsGet searchParams "pageToken") ≠ "") :
    ∃ call, (GET searchParams (some k) fetch).calls = [call] ∧
      call.url = GOOGLE_TEXT_SEARCH_URL ∧
      call.params =
        [("key", k), ("pagetoken", sanitizeQueryParam (paramsGet searchParams "pageToken"))] ∧
      paramsGet call.params "query" = .null ∧
      paramsGet call.params "location" = .null ∧
      paramsGet call.params "radius" = .null := by
  obtain ⟨text, ht⟩ := paramsGet_toStr searchParams "radius"
  refine ⟨{ url := GOOGLE_TEXT_SEARCH_URL,
            params := [("key", k),
              ("pagetoken", sanitizeQueryParam (paramsGet searchParams "pageToken"))] },
    ?_, rfl, rfl, ?_, ?_, ?_⟩
  · rw [GET_forward searchParams k text fetch hq hk ht, if_pos hp, forward_calls]
  · simp [paramsGet]
  · simp [paramsGet]
  · simp [paramsGet]

theorem GET_page_token_params_witness :
    ∃ call,
      (GET [("query", "cafe"), ("location", "1,2"), ("radius", "500"), ("pageToken", " tok ")]
        (some "secret") (fun _ => .networkError)).calls = [call] ∧
      call.url = GOOGLE_TEXT_SEARCH_URL ∧
      call.params =
        [("key", "secret"),
         ("pagetoken", sanitizeQueryParam (paramsGet
            [("query", "cafe"), ("location", "1,2"), ("radius", "500"), ("pageToken", " tok ")]
            "pageToken"))] ∧
      paramsGet call.params "query" = .null ∧
      paramsGet call.params "location" = .null ∧
      paramsGet call.params "radius" = .null :=
  GET_page_token_params
    [("query", "cafe"), ("location", "1,2"), ("radius", "500"), ("pageToken", " tok ")]
    "secret" (fun _ => .networkError) (by decide) (by decide) (by decide)

/-- C4 (counterexample): an Initial Search with location "1,2" and the valid integer
radius 0 sends radius "1500", not "0"; and with the radius "12px", which is not a valid
integer, it sends radius "12", not "1500". -/
theorem POST_radius_zero_sends_default :
    (POST (some (.obj [("query", .str "cafe"), ("location", .str "1,2"), ("radius", .num 0)]))
        (some "k") (fun _ => .networkError)).calls.map UpstreamCall.params =
      [[("query", "cafe"), ("key", "k"), ("location", "1,2"), ("radius", "1500")]] ∧
    (POST (some (.obj [("query", .str "cafe"), ("location", .str "1,2"),
          ("radius", .str "12px")]))
        (some "k") (fun _ => .networkError)).calls.map UpstreamCall.params =
      [[("query", "cafe"), ("key", "k"), ("location", "1,2"), ("radius", "12")]] := by
  decide

/-- C4 (amended): for every Initial Search (`POST`) with a non-empty trimmed query, a
configured credential, a non-empty trimmed location and a radius that converts to a
string, the one upstream call carries `location` (the trimmed location) and `radius`.
The radius is the decimal string of the input radius when that input is a non-zero
integer of magnitude below `2 ^ 53`, and is "1500" when the input radius is absent,
`null` or zero. For any other input it follows `Number.parseInt` on the string of the
input: the decimal string of the leading integer when there is one and it is not zero (of
magnitude below `2 ^ 53`), and "1500" when there is none or it is zero. -/
theorem POST_location_radius (requestJson : Option JsValue) (k radiusText : String)
    (fetch : UpstreamCall → UpstreamReply)
    (hq : sanitizeQueryParam (postField requestJson "query") ≠ "") (hk : k ≠ "")
    (hl : sanitizeQueryParam (postField requestJson "location") ≠ "")
    (hr : (postField requestJson "radius").toStr = some radiusText) :
    ∃ call, (POST requestJson (some k) fetch).calls = [call] ∧
      paramsGet call.params "location" =
        .str (sanitizeQueryParam (postField requestJson "location")) ∧
      (∀ n : Int, postField requestJson "radius" = .num n → n ≠ 0 → n.natAbs < 2 ^ 53 →
        paramsGet call.params "radius" = .str (toString n)) ∧
      (postField requestJson "radius" = .undefined ∨ postField requestJson "radius" = .null ∨
        postField requestJson "radius" = .num 0 →
        paramsGet call.params "radius" = .str "1500") ∧
      (∀ n : Int, parseIntStr radiusText = some n → n ≠ 0 → n.natAbs < 2 ^ 53 →
        paramsGet call.params "radius" = .str (toString n)) ∧
      (parseIntStr radiusText = none ∨ parseIntStr radiusText = some 0 →
        paramsGet call.params "radius" = .str "1500") := by
  have hcalls : (POST requestJson (some k) fetch).calls =
      [{ url := GOOGLE_TEXT_SEARCH_URL,
         params := [("query", sanitizeQueryParam (postField requestJson "query")), ("key", k),
           ("location", sanitizeQueryParam (postField requestJson "location")),
           ("radius", numberText (radiusOrDefault (parseIntStr radiusText)))] }] := by
    rw [POST_forward requestJson k radiusText fetch hq hk hr, if_pos hl, forward_calls]
  have hparsed : ∀ n : Int, parseIntStr radiusText = some n → n ≠ 0 → n.natAbs < 2 ^ 53 →
      numberText (radiusOrDefault (parseIntStr radiusText)) = toString n := by
    intro n hn h0 hbound
    simp only [radiusOrDefault, hn, if_neg h0]
    exact numberText_exact n hbound
  have hdefault : parseIntStr radiusText = none ∨ parseIntStr radiusText = some 0 →
      numberText (radiusOrDefault (parseIntStr radiusText)) = "1500" := by
    intro h
    rcases h with h | h <;> simp only [radiusOrDefault, h, if_true] <;> decide
  refine ⟨_, hcalls, ?_, ?_, ?_, ?_, ?_⟩
  · simp [paramsGet]
  · intro n hn h0 hbound
    have htext : radiusText = toString n := by
      rw [hn] at hr
      simp only [JsValue.toStr, Option.some.injEq] at hr
      rw [← hr, numberText_exact n hbound]
    have := hparsed n (by rw [htext]; exact parseIntStr_toString n) h0 hbound
    simp [paramsGet, this]
  · intro h
    have htext : parseIntStr radiusText = none ∨ parseIntStr radiusText = some 0 := by
      rcases h with h | h | h <;> rw [h] at hr <;>
        simp only [JsValue.toStr, Option.some.injEq] at hr <;> rw [← hr]
      · left; decide
      · left; decide
      · right; decide
    simp [paramsGet, hdefault htext]
  · intro n hn h0 hbound
    simp [paramsGet, hparsed n hn h0 hbound]
  · intro h
    simp [paramsGet, hdefault h]

theorem POST_location_radius_witness :
    ∃ call,
      (POST (some (.obj [("query", .str "cafe"), ("location", .str " 1,2 "),
          ("radius", .num 2000)])) (some "k") (fun _ => .networkError)).calls = [call] ∧
      paramsGet call.params "location" = .str "1,2" ∧
      paramsGet call.params "radius" = .str "2000" := by
  obtain ⟨call, hcalls, hlocation, hinteger, _, _, _⟩ :=
    POST_location_radius
      (some (.obj [("query", .str "cafe"), ("location", .str " 1,2 "), ("radius", .num 2000)]))
      "k" "2000" (fun _ => .networkError) (by decide) (by decide) (by decide) (by decide)
  refine ⟨call, hcalls, ?_, ?_⟩
  · rw [hlocation]
    rfl
  · rw [hinteger 2000 rfl (by decide) (by decide)]
    rfl

/-- C5 (failing input): when the upstream `fetch` itself fails (network error), a `POST`
and a `GET` that passed validation do not answer 502: the rejection is not caught and the
handler ends without a response of its own. -/
theorem network_error_is_not_502 :
    ((POST (some (.obj [("query", .str "cafe")])) (some "k")
        (fun _ => .networkError)).outcome.status = none ∧
      (POST (some (.obj [("query", .str "cafe")])) (some "k")
        (fun _ => .networkError)).outcome.status ≠ some 502) ∧
    ((GET [("query", "cafe")] (some "k") (fun _ => .networkError)).outcome.status = none ∧
      (GET [("query", "cafe")] (some "k") (fun _ => .networkError)).outcome.status ≠
        some 502) := by
  decide

/-- C6 (counterexample): an upstream response body that is `null`, or whose status is an
object that cannot be converted to a string (it has an own `toString` key) and that has no
`error_message`, has a status that is neither "OK" nor "ZERO_RESULTS", yet the handler
does not answer 502: the member access or the template literal throws and the handler
ends without a response of its own. -/
theorem upstream_status_unreadable_throws :
    (POST (some (.obj [("query", .str "cafe")])) (some "k")
      (fun _ => .http true (some .null))).outcome.status = none ∧
    (GET [("query", "cafe")] (some "k")
      (fun _ => .http true (some .null))).outcome.status = none ∧
    (GET [("query", "cafe")] (some "k")
      (fun _ => .http true (some (.obj [("status", .obj [("toString", .num 1)])])))).outcome.status
      = none := by
  decide

/-- C6 (amended): for every request that passes validation (`POST`, with a radius that
converts to a string, and `GET`) and every upstream response body other than `null` whose
`status` is neither "OK" nor "ZERO_RESULTS", the handler answers 502 with the provider's
`error_message` as error when one is present (a truthy value, such as a non-empty
string); otherwise, when the status converts to a string (as every string does), the
error is exactly "Google API error (<STATUS>)." with the provider's status; status
"OVER_QUERY_LIMIT" without `error_message` yields "Google API error (OVER_QUERY_LIMIT).". -/
theorem upstream_error_status_502 (requestJson : Option JsValue)
    (searchParams : List (String × String)) (k radiusText : String)
    (fetch : UpstreamCall → UpstreamReply) (data st : JsValue)
    (hPost : sanitizeQueryParam (postField requestJson "query") ≠ "")
    (hRadius : (postField requestJson "radius").toStr = some radiusText)
    (hGet : sanitizeQueryParam (paramsGet searchParams "query") ≠ "") (hk : k ≠ "")
    (hf : ∀ c, fetch c = .http true (some data))
    (hst : data.getProp "status" = some st)
    (hOK : st ≠ .str "OK") (hZero : st ≠ .str "ZERO_RESULTS") :
    ((data.getPropOpt "error_message").truthy = true →
      (POST requestJson (some k) fetch).outcome =
        .respond 502 (errorBody (data.getPropOpt "error_message")) ∧
      (GET searchParams (some k) fetch).outcome =
        .respond 502 (errorBody (data.getPropOpt "error_message"))) ∧
    (∀ message, data.getPropOpt "error_message" = .str message → message ≠ "" →
      (POST requestJson (some k) fetch).outcome = .respond 502 (errorBody (.str message)) ∧
      (GET searchParams (some k) fetch).outcome = .respond 502 (errorBody (.str message))) ∧
    (∀ statusText, (data.getPropOpt "error_message").truthy = false →
      st.toStr = some statusText →
      (POST requestJson (some k) fetch).outcome =
        .respond 502 (errorBody (.str ("Google API error (" ++ statusText ++ ")."))) ∧
      (GET searchParams (some k) fetch).outcome =
        .respond 502 (errorBody (.str ("Google API error (" ++ statusText ++ ").")))) ∧
    (∀ status, st = .str status → (data.getPropOpt "error_message").truthy = false →
      (POST requestJson (some k) fetch).outcome =
        .respond 502 (errorBody (.str ("Google API error (" ++ status ++ ")."))) ∧
      (GET searchParams (some k) fetch).outcome =
        .respond 502 (errorBody (.str ("Google API error (" ++ status ++ ").")))) ∧
    (st = .str "OVER_QUERY_LIMIT" → data.getPropOpt "error_message" = .undefined →
      (POST requestJson (some k) fetch).outcome =
        .respond 502 (errorBody (.str "Google API error (OVER_QUERY_LIMIT).")) ∧
      (GET searchParams (some k) fetch).outcome =
        .respond 502 (errorBody (.str "Google API error (OVER_QUERY_LIMIT)."))) := by
  obtain ⟨text, ht⟩ := paramsGet_toStr searchParams "radius"
  have hpost : (POST requestJson (some k) fetch).outcome = (normalize data).getD .threw := by
    rw [POST_forward requestJson k radiusText fetch hPost hk hRadius,
      forward_ok _ fetch data hf]
  have hget : (GET searchParams (some k) fetch).outcome = (normalize data).getD .threw := by
    rw [GET_forward searchParams k text fetch hGet hk ht, forward_ok _ fetch data hf]
  rw [hpost, hget]
  have hmessage : (data.getPropOpt "error_message").truthy = true →
      (normalize data).getD .threw =
        .respond 502 (errorBody (data.getPropOpt "error_message")) := by
    intro hm
    rw [normalize_error_message hst hOK hZero hm]
    rfl
  have hstatus : ∀ statusText, (data.getPropOpt "error_message").truthy = false →
      st.toStr = some statusText →
      (normalize data).getD .threw =
        .respond 502 (errorBody (.str ("Google API error (" ++ statusText ++ ")."))) := by
    intro statusText hm htext
    rw [normalize_error_status hst hOK hZero hm htext]
    rfl
  refine ⟨fun hm => ⟨hmessage hm, hmessage hm⟩, ?_, fun statusText hm htext =>
    ⟨hstatus statusText hm htext, hstatus statusText hm htext⟩, ?_, ?_⟩
  · intro message hm hne
    have htruthy : (data.getPropOpt "error_message").truthy = true := by
      simp [hm, JsValue.truthy, hne]
    rw [← hm]
    exact ⟨hmessage htruthy, hmessage htruthy⟩
  · intro status hs hm
    have htext : st.toStr = some status := by rw [hs]; rfl
    exact ⟨hstatus status hm htext, hstatus status hm htext⟩
  · intro hs hm
    have htext : st.toStr = some "OVER_QUERY_LIMIT" := by rw [hs]; rfl
    have hfalse : (data.getPropOpt "error_message").truthy = false := by rw [hm]; rfl
    exact ⟨hstatus _ hfalse htext, hstatus _ hfalse htext⟩

theorem upstream_error_status_502_witness :
    ((POST (some (.obj [("query", .str "cafe")])) (some "k")
        (fun _ => .http true (some (.obj [("status", .str "OVER_QUERY_LIMIT")])))).outcome =
        .respond 502 (errorBody (.str "Google API error (OVER_QUERY_LIMIT).")) ∧
      (GET [("query", "cafe")] (some "k")
        (fun _ => .http true (some (.obj [("status", .str "OVER_QUERY_LIMIT")])))).outcome =
        .respond 502 (errorBody (.str "Google API error (OVER_QUERY_LIMIT)."))) ∧
    ((POST (some (.obj [("query", .str "cafe")])) (some "k")
        (fun _ => .http true (some (.obj [("status", .str "REQUEST_DENIED"),
          ("error_message", .str "The provided API key is invalid.")])))).outcome =
        .respond 502 (errorBody (.str "The provided API key is invalid.")) ∧
      (GET [("query", "cafe")] (some "k")
        (fun _ => .http true (some (.obj [("status", .str "REQUEST_DENIED"),
          ("error_message", .str "The provided API key is invalid.")])))).outcome =
        .respond 502 (errorBody (.str "The provided API key is invalid."))) :=
  ⟨(upstream_error_status_502 (some (.obj [("query", .str "cafe")])) [("query", "cafe")]
      "k" "undefined"
      (fun _ => .http true (some (.obj [("status", .str "OVER_QUERY_LIMIT")])))
      (.obj [("status", .str "OVER_QUERY_LIMIT")]) (.str "OVER_QUERY_LIMIT")
      (by decide) (by decide) (by decide) (by decide) (fun _ => rfl) rfl
      (by simp) (by simp)).2.2.2.2 rfl rfl,
   (upstream_error_status_502 (some (.obj [("query", .str "cafe")])) [("query", "cafe")]
      "k" "undefined"
      (fun _ => .http true (some (.obj [("status", .str "REQUEST_DENIED"),
        ("error_message", .str "The provided API key is invalid.")])))
      (.obj [("status", .str "REQUEST_DENIED"),
        ("error_message", .str "The provided API key is invalid.")]) (.str "REQUEST_DENIED")
      (by decide) (by decide) (by decide) (by decide) (fun _ => rfl) rfl
      (by simp) (by simp)).2.1 "The provided API key is invalid." rfl (by decide)⟩

/-- C7 (counterexample): an upstream response with status "ZERO_RESULTS" that carries a
place and a token is answered 200 with that place and that token, not with `results: []`
and `nextPageToken: null`. -/
theorem zero_results_passes_results_through :
    (GET [("query", "cafe")] (some "k")
      (fun _ => .http true (some (.obj [("status", .str "ZERO_RESULTS"),
        ("results", .arr [.obj [("place_id", .str "p1")]]),
        ("next_page_token", .str "T1")])))).outcome =
      .respond 200 (.obj [("results", .arr [.obj [("place_id", .str "p1")]]),
        ("nextPageToken", .str "T1")]) := by
  rfl

/-- C7 (amended): for every request that passes validation (`POST`, with a radius that
converts to a string, and `GET`) and every upstream response body whose `status` is "OK"
or "ZERO_RESULTS", the handler answers 200 with a payload whose `results` is the
provider's `results` when that is an array and the empty array otherwise, and whose
`nextPageToken` is the provider's `next_page_token` when present (truthy) and `null`
otherwise, so it is never the empty string; a "ZERO_RESULTS" response that carries no
results array or an empty one, and no token, gives `results: []` and
`nextPageToken: null`. -/
theorem upstream_success_200 (requestJson : Option JsValue)
    (searchParams : List (String × String)) (k radiusText : String)
    (fetch : UpstreamCall → UpstreamReply) (data st : JsValue)
    (hPost : sanitizeQueryParam (postField requestJson "query") ≠ "")
    (hRadius : (postField requestJson "radius").toStr = some radiusText)
    (hGet : sanitizeQueryParam (paramsGet searchParams "query") ≠ "") (hk : k ≠ "")
    (hf : ∀ c, fetch c = .http true (some data))
    (hst : data.getProp "status" = some st)
    (hOk : st = .str "OK" ∨ st = .str "ZERO_RESULTS") :
    ∃ results token,
      (POST requestJson (some k) fetch).outcome =
        .respond 200 (.obj [("results", results), ("nextPageToken", token)]) ∧
      (GET searchParams (some k) fetch).outcome =
        .respond 200 (.obj [("results", results), ("nextPageToken", token)]) ∧
      ((data.getPropOpt "results").isArray = true → results = data.getPropOpt "results") ∧
      ((data.getPropOpt "results").isArray = false → results = .arr []) ∧
      ((data.getPropOpt "next_page_token").truthy = true →
        token = data.getPropOpt "next_page_token") ∧
      ((data.getPropOpt "next_page_token").truthy = false → token = .null) ∧
      token ≠ .str "" ∧
      (st = .str "ZERO_RESULTS" →
        (data.getPropOpt "results" = .arr [] ∨ (data.getPropOpt "results").isArray = false) →
        (data.getPropOpt "next_page_token").truthy = false →
        results = .arr [] ∧ token = .null) := by
  obtain ⟨text, ht⟩ := paramsGet_toStr searchParams "radius"
  refine ⟨if (data.getPropOpt "results").isArray then data.getPropOpt "results" else .arr [],
    (data.getPropOpt "next_page_token").orElse .null, ?_, ?_, ?_, ?_, ?_, ?_, ?_, ?_⟩
  · rw [POST_forward requestJson k radiusText fetch hPost hk hRadius,
      forward_ok _ fetch data hf, normalize_success hst hOk]
    rfl
  · rw [GET_forward searchParams k text fetch hGet hk ht, forward_ok _ fetch data hf,
      normalize_success hst hOk]
    rfl
  · intro h
    simp [h]
  · intro h
    simp [h]
  · intro h
    simp [JsValue.orElse, h]
  · intro h
    simp [JsValue.orElse, h]
  · exact orElse_null_ne_empty _
  · intro _ hr ht
    constructor
    · rcases hr with hr | hr
      · simp [hr]
      · simp [hr]
    · simp [JsValue.orElse, ht]

/-- A check of C7 on an "OK" response with one place and a token, which are passed on,
and on a "ZERO_RESULTS" response with an empty array and no token. -/
theorem upstream_success_200_witness :
    ((POST (some (.obj [("query", .str "cafe")])) (some "k")
        (fun _ => .http true (some (.obj [("status", .str "OK"),
          ("results", .arr [.obj [("place_id", .str "p1")]]),
          ("next_page_token", .str "T1")])))).outcome =
        .respond 200 (.obj [("results", .arr [.obj [("place_id", .str "p1")]]),
          ("nextPageToken", .str "T1")]) ∧
      (GET [("query", "cafe")] (some "k")
        (fun _ => .http true (some (.obj [("status", .str "OK"),
          ("results", .arr [.obj [("place_id", .str "p1")]]),
          ("next_page_token", .str "T1")])))).outcome =
        .respond 200 (.obj [("results", .arr [.obj [("place_id", .str "p1")]]),
          ("nextPageToken", .str "T1")])) ∧
    ((POST (some (.obj [("query", .str "cafe")])) (some "k")
        (fun _ => .http true (some (.obj [("status", .str "ZERO_RESULTS"),
          ("results", .arr [])])))).outcome =
        .respond 200 (.obj [("results", .arr []), ("nextPageToken", .null)]) ∧
      (GET [("query", "cafe")] (some "k")
        (fun _ => .http true (some (.obj [("status", .str "ZERO_RESULTS"),
          ("results", .arr [])])))).outcome =
        .respond 200 (.obj [("results", .arr []), ("nextPageToken", .null)])) := by
  constructor
  · obtain ⟨results, token, hPost, hGet, hresults, _, htoken, _, _, _⟩ :=
      upstream_success_200 (some (.obj [("query", .str "cafe")])) [("query", "cafe")] "k"
        "undefined"
        (fun _ => .http true (some (.obj [("status", .str "OK"),
          ("results", .arr [.obj [("place_id", .str "p1")]]),
          ("next_page_token", .str "T1")])))
        (.obj [("status", .str "OK"), ("results", .arr [.obj [("place_id", .str "p1")]]),
          ("next_page_token", .str "T1")]) (.str "OK")
        (by decide) (by decide) (by decide) (by decide) (fun _ => rfl) rfl (Or.inl rfl)
    rw [hresults rfl, htoken rfl] at hPost hGet
    exact ⟨hPost, hGet⟩
  · obtain ⟨results, token, hPost, hGet, _, _, _, _, _, hZero⟩ :=
      upstream_success_200 (some (.obj [("query", .str "cafe")])) [("query", "cafe")] "k"
        "undefined"
        (fun _ => .http true (some (.obj [("status", .str "ZERO_RESULTS"),
          ("results", .arr [])])))
        (.obj [("status", .str "ZERO_RESULTS"), ("results", .arr [])]) (.str "ZERO_RESULTS")
        (by decide) (by decide) (by decide) (by decide) (fun _ => rfl) rfl (Or.inr rfl)
    obtain ⟨hr, ht⟩ := hZero rfl (Or.inl rfl) rfl
    rw [hr, ht] at hPost hGet
    exact ⟨hPost, hGet⟩

/-! ## Properties of the search interface -/

theorem failureStatus_message_ne (message : String) : (failureStatus message).message ≠ "" := by
  unfold failureStatus
  by_cases h : message = ""
  · simp [h]
  · simp [h]

theorem failureStatus_loading (message : String) : (failureStatus message).loading = false :=
  rfl

/-- A reply that is a transport error or carries a non-success status makes the `try`
block throw. -/
theorem awaitPayload_failure (reply : ProxyReply) (fallback : String)
    (h : (∃ message, reply = .rejected message) ∨ (∃ json, reply = .http false json)) :
    ∃ message, awaitPayload reply fallback = .error message := by
  rcases h with ⟨message, rfl⟩ | ⟨json, rfl⟩
  · exact ⟨message, rfl⟩
  · exact ⟨_, rfl⟩

/-- C8: for every interface state with a present ContinuationToken and any ResultSet, a
"load more" action whose proxy request fails (transport error, or a non-success HTTP
status such as 502) ends in a state whose ResultSet, count and ContinuationToken (and
form and history) equal those before the action, with `loading = false` and a non-empty
status message. -/
theorem fetchNextPage_failure_keeps_results (s : UiState) (fetch : ProxyRequest → ProxyReply)
    (htoken : s.nextPageToken.truthy = true)
    (hfail : (∃ message, fetch (nextPageRequest s) = .rejected message) ∨
      (∃ json, fetch (nextPageRequest s) = .http false json)) :
    ∃ s', fetchNextPage s fetch = some s' ∧
      s'.results = s.results ∧ resultCount s' = resultCount s ∧
      s'.nextPageToken = s.nextPageToken ∧ s'.form = s.form ∧ s'.history = s.history ∧
      s'.status.loading = false ∧ s'.status.message ≠ "" := by
  obtain ⟨message, hm⟩ := awaitPayload_failure _ "Failed to fetch next page." hfail
  by_cases hparams : (nextPageParams s).isNone = true
  · refine ⟨{ s with status := failureStatus cannotConvertMessage }, ?_, rfl, rfl, rfl, rfl,
      rfl, rfl, failureStatus_message_ne _⟩
    unfold fetchNextPage
    simp [htoken, hparams]
  · refine ⟨{ s with status := failureStatus message }, ?_, rfl, rfl, rfl, rfl, rfl, rfl,
      failureStatus_message_ne message⟩
    unfold fetchNextPage
    simp only [htoken, Bool.not_true, Bool.false_eq_true, if_false, hparams, hm]

theorem fetchNextPage_failure_keeps_results_witness :
    ∃ s',
      fetchNextPage
        { initialState with
          results := .arr [.obj [("place_id", .str "p1")], .obj [("place_id", .str "p2")]],
          nextPageToken := .str "tok" }
        (fun _ => .http false (.ok (.obj [("error", .str "Unable to reach Google Places API.")])))
        = some s' ∧
      s'.results = .arr [.obj [("place_id", .str "p1")], .obj [("place_id", .str "p2")]] ∧
      resultCount s' = some 2 ∧
      s'.nextPageToken = .str "tok" ∧ s'.form = initialState.form ∧ s'.history = [] ∧
      s'.status.loading = false ∧ s'.status.message ≠ "" :=
  fetchNextPage_failure_keeps_results
    { initialState with
      results := .arr [.obj [("place_id", .str "p1")], .obj [("place_id", .str "p2")]],
      nextPageToken := .str "tok" }
    (fun _ => .http false (.ok (.obj [("error", .str "Unable to reach Google Places API.")])))
    rfl (Or.inr ⟨_, rfl⟩)

/-- C9: for every interface state, the first action of a new submission sets the ResultSet
to empty and the ContinuationToken to absent, before any response is processed; if the
submission then fails (transport error, non-success status, undecodable payload or a
payload without members) both are still cleared at the end, and if it succeeds the
ResultSet is exactly the returned `results`. -/
theorem handleSubmit_clears_then_replaces (s : UiState) (fetch : ProxyRequest → ProxyReply)
    (now : String) :
    Cleared (handleSubmitBegin s) ∧
    (∀ message, fetch (submitRequest s.form) = .rejected message →
      Cleared (handleSubmit s fetch now)) ∧
    (∀ json, fetch (submitRequest s.form) = .http false json →
      Cleared (handleSubmit s fetch now)) ∧
    (∀ message, fetch (submitRequest s.form) = .http true (.error message) →
      Cleared (handleSubmit s fetch now)) ∧
    (∀ payload, fetch (submitRequest s.form) = .http true (.ok payload) →
      payload.getProp "results" = none → Cleared (handleSubmit s fetch now)) ∧
    (∀ payload results, fetch (submitRequest s.form) = .http true (.ok payload) →
      payload.getProp "results" = some results →
      (handleSubmit s fetch now).results = results ∧
      (handleSubmit s fetch now).nextPageToken = payload.getPropOpt "nextPageToken") := by
  refine ⟨⟨rfl, rfl⟩, ?_, ?_, ?_, ?_, ?_⟩
  · intro message h
    simp [handleSubmit, handleSubmitSettle, h, awaitPayload, Cleared, handleSubmitBegin]
  · intro json h
    simp [handleSubmit, handleSubmitSettle, h, awaitPayload, Cleared, handleSubmitBegin]
  · intro message h
    simp [handleSubmit, handleSubmitSettle, h, awaitPayload, Cleared, handleSubmitBegin]
  · intro payload h hr
    simp [handleSubmit, handleSubmitSettle, h, awaitPayload, Cleared, handleSubmitBegin, hr]
  · intro payload results h hr
    simp [handleSubmit, handleSubmitSettle, h, awaitPayload, hr,
      getProp_of_some hr "nextPageToken"]

/-- A check of C9 on a state that holds two results and a token: the submission first
clears both, and the successful reply then leaves exactly the one returned result. -/
theorem handleSubmit_clears_then_replaces_witness :
    Cleared (handleSubmitBegin
      { initialState with
        results := .arr [.obj [("place_id", .str "p1")], .obj [("place_id", .str "p2")]],
        nextPageToken := .str "tok" }) ∧
    (handleSubmit
      { initialState with
        results := .arr [.obj [("place_id", .str "p1")], .obj [("place_id", .str "p2")]],
        nextPageToken := .str "tok" }
      (fun _ => .http true (.ok (.obj [("results", .arr [.obj [("place_id", .str "p3")]]),
        ("nextPageToken", .null)])))
      "2024-01-01T00:00:00.000Z").results = .arr [.obj [("place_id", .str "p3")]] :=
  ⟨(handleSubmit_clears_then_replaces
      { initialState with
        results := .arr [.obj [("place_id", .str "p1")], .obj [("place_id", .str "p2")]],
        nextPageToken := .str "tok" }
      (fun _ => .http true (.ok (.obj [("results", .arr [.obj [("place_id", .str "p3")]]),
        ("nextPageToken", .null)])))
      "2024-01-01T00:00:00.000Z").1,
   ((handleSubmit_clears_then_replaces
      { initialState with
        results := .arr [.obj [("place_id", .str "p1")], .obj [("place_id", .str "p2")]],
        nextPageToken := .str "tok" }
      (fun _ => .http true (.ok (.obj [("results", .arr [.obj [("place_id", .str "p3")]]),
        ("nextPageToken", .null)])))
      "2024-01-01T00:00:00.000Z").2.2.2.2.2
      (.obj [("results", .arr [.obj [("place_id", .str "p3")]]), ("nextPageToken", .null)])
      (.arr [.obj [("place_id", .str "p3")]]) rfl rfl).1⟩

/-- A successful submission puts its entry in front of the first four entries of the
history. -/
theorem submit_history (s : UiState) (x : Submission) (hx : x.succeeds) :
    (submit s x).history = entryOf x :: s.history.take 4 := by
  obtain ⟨payload, results, hreply, hresults⟩ := hx
  simp [submit, handleSubmit, handleSubmitSettle, hreply, awaitPayload, hresults,
    getProp_of_some hresults "nextPageToken", handleSubmitBegin, entryOf]

theorem runSubmissions_append (s : UiState) (xs : List Submission) (x : Submission) :
    runSubmissions s (xs ++ [x]) = submit (runSubmissions s xs) x := by
  simp [runSubmissions, List.foldl_append]

/-- After any sequence of successful submissions from an empty history, the history is
the list of their entries, newest first, cut after five. -/
theorem runSubmissions_history (s : UiState) (xs : List Submission)
    (hempty : s.history = []) (hok : ∀ x ∈ xs, x.succeeds) :
    (runSubmissions s xs).history = ((xs.map entryOf).reverse).take 5 := by
  induction xs using List.reverseRecOn with
  | nil => simp [runSubmissions, hempty]
  | append_singleton xs x ih =>
    have hxs : ∀ y ∈ xs, y.succeeds := fun y hy => hok y (List.mem_append_left _ hy)
    have hx : x.succeeds := hok x (List.mem_append_right _ (List.mem_singleton_self x))
    rw [runSubmissions_append, submit_history _ _ hx, ih hxs]
    simp [List.take_take]

/-- C10: starting from the empty history, after any sequence of successful submissions the
history is the list of the submissions' entries ordered most-recent-first and cut after
the fifth, so it holds at most 5 entries, the newest at the head and the older ones in
their order; after 6 successful submissions it holds exactly the entries of submissions
6, 5, 4, 3, 2, the entry of the 1st having been evicted. -/
theorem history_five_most_recent_first (s : UiState) (xs : List Submission)
    (hempty : s.history = []) (hok : ∀ x ∈ xs, x.succeeds) :
    (runSubmissions s xs).history = ((xs.map entryOf).reverse).take 5 ∧
    (runSubmissions s xs).history.length ≤ 5 ∧
    (∀ x1 x2 x3 x4 x5 x6, xs = [x1, x2, x3, x4, x5, x6] →
      (runSubmissions s xs).history =
        [entryOf x6, entryOf x5, entryOf x4, entryOf x3, entryOf x2]) := by
  have h := runSubmissions_history s xs hempty hok
  refine ⟨h, ?_, ?_⟩
  · rw [h]
    exact List.length_take_le 5 _
  · intro x1 x2 x3 x4 x5 x6 hxs
    rw [h, hxs]
    rfl

theorem history_five_most_recent_first_witness :
    (runSubmissions initialState
      [sampleSubmission "q1" "t1", sampleSubmission "q2" "t2", sampleSubmission "q3" "t3",
       sampleSubmission "q4" "t4", sampleSubmission "q5" "t5",
       sampleSubmission "q6" "t6"]).history =
      [entryOf (sampleSubmission "q6" "t6"), entryOf (sampleSubmission "q5" "t5"),
       entryOf (sampleSubmission "q4" "t4"), entryOf (sampleSubmission "q3" "t3"),
       entryOf (sampleSubmission "q2" "t2")] :=
  (history_five_most_recent_first initialState
    [sampleSubmission "q1" "t1", sampleSubmission "q2" "t2", sampleSubmission "q3" "t3",
     sampleSubmission "q4" "t4", sampleSubmission "q5" "t5", sampleSubmission "q6" "t6"]
    rfl
    (fun x _ => by
      have hx : ∃ q now, x = sampleSubmission q now := by
        simp only [List.mem_cons, List.mem_singleton, List.not_mem_nil, or_false] at *
        rename_i hmem
        rcases hmem with h | h | h | h | h | h <;> exact ⟨_, _, h⟩
      obtain ⟨q, now, rfl⟩ := hx
      exact ⟨_, _, rfl, rfl⟩)).2.2 _ _ _ _ _ _ rfl

/-! ## Properties of the CSV export -/

theorem toList_append (a b : String) : (a ++ b).toList = a.toList ++ b.toList := by
  simp [String.toList]

theorem doubleQuotes_eq_flatMap (l : List Char) :
    doubleQuotes l = l.flatMap (fun c => if c = '"' then ['"', '"'] else [c]) := by
  induction l with
  | nil => rfl
  | cons c cs ih =>
    by_cases h : c = '"'
    · simp [doubleQuotes, h, ih]
    · simp [doubleQuotes, h, ih]

/-- The source's treatment of a field value is the quoting of the export format, applied
to the string of the value. -/
theorem csvField_eq_quoted (value : JsValue) (text : String)
    (h : (value.nullish (.str "")).toStr = some text) :
    csvField value = some (quoted text) := by
  simp [csvField, h, quoted, doubleQuotes_eq_flatMap]

theorem quoted_toList (text : String) :
    (quoted text).toList = '"' :: (doubleQuotes text.toList ++ ['"']) := by
  simp [quoted, doubleQuotes_eq_flatMap, toList_append, String.toList]

theorem readQuoted_cons_ne (c : Char) (l : List Char) (h : c ≠ '"') :
    readQuoted (c :: l) = (readQuoted l).map (fun r => (c :: r.1, r.2)) := by
  cases l with
  | nil => simp [readQuoted, h]
  | cons d rest => simp [readQuoted, h]

theorem readQuoted_quote_quote (l : List Char) :
    readQuoted ('"' :: '"' :: l) = (readQuoted l).map (fun r => ('"' :: r.1, r.2)) := by
  simp [readQuoted]

/-- The reader recovers a field from its doubled text, and stops at its closing quote
when what follows is not a quote. -/
theorem readQuoted_doubleQuotes (field rest : List Char) (hrest : rest.head? ≠ some '"') :
    readQuoted (doubleQuotes field ++ '"' :: rest) = some (field, rest) := by
  induction field with
  | nil =>
    cases rest with
    | nil => simp [doubleQuotes, readQuoted]
    | cons d r =>
      have hd : d ≠ '"' := by
        intro h
        exact hrest (by simp [h])
      simp [doubleQuotes, readQuoted, hd]
  | cons c cs ih =>
    by_cases h : c = '"'
    · subst h
      simp only [doubleQuotes, if_pos, List.cons_append]
      rw [readQuoted_quote_quote, ih]
      rfl
    · simp only [doubleQuotes, if_neg h, List.cons_append]
      rw [readQuoted_cons_ne c _ h, ih]
      rfl

theorem joinWith_length (fields : List String) :
    fields.length ≤ (joinWith "," (fields.map quoted)).length + 1 := by
  induction fields with
  | nil => simp
  | cons x xs ih =>
    cases xs with
    | nil => simp
    | cons y ys =>
      have hcomma : (",".length : Nat) = 1 := rfl
      simp only [List.map_cons, joinWith, String.length_append, List.length_cons,
        hcomma] at ih ⊢
      omega

/-- The reader recovers every field of a row of quoted fields joined by commas. -/
theorem readRow_joinWith (fields : List String) (hne : fields ≠ []) (fuel : Nat)
    (hfuel : fields.length ≤ fuel) :
    readRow fuel (joinWith "," (fields.map quoted)).toList = some fields := by
  induction fields generalizing fuel with
  | nil => exact absurd rfl hne
  | cons x xs ih =>
    cases fuel with
    | zero => simp at hfuel
    | succ fuel =>
      cases xs with
      | nil =>
        simp only [List.map_cons, List.map_nil, joinWith, quoted_toList, readRow]
        rw [readQuoted_doubleQuotes x.toList [] (by simp)]
        rfl
      | cons y ys =>
        have hlen : (y :: ys).length ≤ fuel := by
          simp only [List.length_cons] at hfuel ⊢
          omega
        have hrec := ih (by simp) fuel hlen
        simp only [List.map_cons] at hrec
        simp only [List.map_cons, joinWith, toList_append, quoted_toList, readRow,
          List.append_assoc, List.cons_append, List.nil_append]
        have hcomma : (",".toList : List Char) = [','] := rfl
        rw [hcomma]
        simp only [List.cons_append, List.nil_append]
        rw [readQuoted_doubleQuotes x.toList _ (by simp)]
        simp only [hrec, Option.map_some']
        rfl

theorem parseCsvRow_joinWith (fields : List String) (hne : fields ≠ []) :
    parseCsvRow (joinWith "," (fields.map quoted)) = some fields :=
  readRow_joinWith fields hne _ (joinWith_length fields)

theorem mapOption_typeLabel (toUpperCase : Char → String) (xs : List JsValue)
    (h : ∀ x ∈ xs, ∃ s, x = .str s) :
    ∃ labels, mapOption (typeLabel toUpperCase) xs = some labels := by
  induction xs with
  | nil => exact ⟨[], rfl⟩
  | cons x xs ih =>
    obtain ⟨s, rfl⟩ := h x (List.mem_cons_self _ _)
    obtain ⟨labels, hl⟩ := ih (fun y hy => h y (List.mem_cons_of_mem _ hy))
    exact ⟨joinWith " " ((splitOn '_' s.toList).map (capitalize toUpperCase)) :: labels,
      by simp [mapOption, typeLabel, hl]⟩

/-- On a list of category tags, or on anything that is not an array, `formatTypes`
returns a string. -/
theorem formatTypes_total (toUpperCase : Char → String) (types : JsValue)
    (h : TagList types) : ∃ text, formatTypes toUpperCase types = some text := by
  cases types with
  | arr xs =>
    obtain ⟨labels, hl⟩ := mapOption_typeLabel toUpperCase xs h
    exact ⟨joinWith ", " labels, by simp [formatTypes, hl]⟩
  | _ => exact ⟨_, rfl⟩

/-- A value `a || "text"` is never `undefined` or `null`, so `??` leaves it as it is. -/
theorem nullish_orElse_str (a b : JsValue) (text : String) :
    (a.orElse (.str text)).nullish b = a.orElse (.str text) := by
  unfold JsValue.orElse
  by_cases h : a.truthy = true
  · rw [if_pos h]
    cases a <;> simp [JsValue.truthy] at h <;> rfl
  · rw [if_neg h]
    rfl

/-- A value `a ?? "text"` is never `undefined` or `null`. -/
theorem nullish_nullish_str (a b : JsValue) (text : String) :
    (a.nullish (.str text)).nullish b = a.nullish (.str text) := by
  cases a <;> rfl

/-- The data row of a place: for a record whose `types` is a list of tags and whose
field values convert to strings, the row is the seven values in the order name,
formatted address, phone, rating, user ratings total, types, maps URL, each quoted and
joined by commas, and a CSV reader recovers exactly these seven values. -/
theorem csvRow_fields (toUpperCase : Char → String) (props : List (String × JsValue))
    (name address phone rating total types id : String)
    (hname : ((JsValue.lookup "name" props).orElse (.str "")).toStr = some name)
    (haddress :
      ((JsValue.lookup "formatted_address" props).orElse (.str "")).toStr = some address)
    (hphone : (extractPhone (.obj props)).toStr = some phone)
    (hrating : ((JsValue.lookup "rating" props).nullish (.str "")).toStr = some rating)
    (htotal :
      ((JsValue.lookup "user_ratings_total" props).nullish (.str "")).toStr = some total)
    (htypes : formatTypes toUpperCase (JsValue.lookup "types" props) = some types)
    (hid : (JsValue.lookup "place_id" props).toStr = some id) :
    csvRow toUpperCase (.obj props) =
      some (joinWith "," [quoted name, quoted address, quoted phone, quoted rating,
        quoted total, quoted types,
        quoted (if (JsValue.lookup "place_id" props).truthy then
          "https://www.google.com/maps/place/?q=place_id:" ++ id else "")]) ∧
    parseCsvRow (joinWith "," [quoted name, quoted address, quoted phone, quoted rating,
        quoted total, quoted types,
        quoted (if (JsValue.lookup "place_id" props).truthy then
          "https://www.google.com/maps/place/?q=place_id:" ++ id else "")]) =
      some [name, address, phone, rating, total, types,
        if (JsValue.lookup "place_id" props).truthy then
          "https://www.google.com/maps/place/?q=place_id:" ++ id else ""] := by
  constructor
  · have h1 := csvField_eq_quoted _ name (by rw [nullish_orElse_str]; exact hname)
    have h2 := csvField_eq_quoted _ address (by rw [nullish_orElse_str]; exact haddress)
    have h3 := csvField_eq_quoted (extractPhone (.obj props)) phone
      (by unfold extractPhone at hphone ⊢; rw [nullish_orElse_str]; exact hphone)
    have h4 := csvField_eq_quoted _ rating (by rw [nullish_nullish_str]; exact hrating)
    have h5 := csvField_eq_quoted _ total (by rw [nullish_nullish_str]; exact htotal)
    have h6 := csvField_eq_quoted (.str types) types rfl
    by_cases hp : (JsValue.lookup "place_id" props).truthy = true
    · have hlink : "https://www.google.com/maps/place/?q=place_id:" ++ id ≠ "" := by
        intro h
        have hlen := congrArg String.length h
        rw [String.length_append] at hlen
        have h46 : "https://www.google.com/maps/place/?q=place_id:".length = 46 := by decide
        have h0 : "".length = 0 := rfl
        omega
      have h7 := csvField_eq_quoted
        ((JsValue.str ("https://www.google.com/maps/place/?q=place_id:" ++ id)).orElse
          (.str ""))
        ("https://www.google.com/maps/place/?q=place_id:" ++ id)
        (by rw [nullish_orElse_str]
            simp [JsValue.orElse, JsValue.truthy, JsValue.toStr, hlink])
      simp only [csvRow, JsValue.getProp, htypes, buildMapsLink, JsValue.getPropOpt, hp, hid,
        Option.pure_def, Option.bind_eq_bind, Option.some_bind, Option.map_some',
        Bool.not_true, Bool.false_eq_true, if_false, if_true, mapOption, h1, h2, h3, h4, h5,
        h6, h7]
    · have h7 := csvField_eq_quoted ((JsValue.null).orElse (.str "")) "" rfl
      simp only [csvRow, JsValue.getProp, htypes, buildMapsLink, JsValue.getPropOpt, hp,
        Option.pure_def, Option.bind_eq_bind, Option.some_bind, Bool.not_false, if_true,
        if_false, mapOption, h1, h2, h3, h4, h5, h6, h7]
      simp
  · exact parseCsvRow_joinWith
      [name, address, phone, rating, total, types,
        if (JsValue.lookup "place_id" props).truthy then
          "https://www.google.com/maps/place/?q=place_id:" ++ id else ""] (by simp)

set_option maxRecDepth 8192 in
/-- The rows the export builds for a place without rating and review count, whose fourth
and fifth fields are the quoted empty string, and for a place with phone numbers, rating
and review count, whose third field is the formatted phone number. -/
theorem csvRow_samples :
    csvRow asciiUpperCase (.obj unratedPlace) =
      some ("\"Joe \"\"J\"\" Cafe, Inc\",\"1 Main St\",\"\",\"\",\"\"," ++
        "\"Cafe, Point Of Interest\",\"https://www.google.com/maps/place/?q=place_id:abc\"") ∧
    csvRow asciiUpperCase (.obj ratedPlace) =
      some ("\"Bar\",\"2 High St\",\"(01) 234\",\"4.5\",\"120\"," ++
        "\"Bar\",\"https://www.google.com/maps/place/?q=place_id:xyz\"") ∧
    csvRow asciiUpperCase (.obj [("name", .obj [("toString", .num 1)])]) = none := by
  decide

set_option maxRecDepth 8192 in
/-- The document of the export for one place: the header row and the data row, joined by
a line feed. -/
theorem csvDocument_sample :
    csvDocument asciiUpperCase (.arr [.obj unratedPlace]) =
      some ("Name,Formatted Address,Phone,Rating,User Ratings Total,Types,Maps URL\n" ++
        "\"Joe \"\"J\"\" Cafe, Inc\",\"1 Main St\",\"\",\"\",\"\"," ++
        "\"Cafe, Point Of Interest\",\"https://www.google.com/maps/place/?q=place_id:abc\"") := by
  decide

/-- C11 (failing input): for every ResultSet, with its rows built or not, the `Export CSV`
handler offers no file: it passes the joined document, a string, to `new Blob`, whose
first argument must be a sequence, so the constructor throws before any download is
offered. The data rows of the claim are never emitted. -/
theorem exportCsv_offers_no_file (toUpperCase : Char → String) (results : JsValue) :
    exportCsv toUpperCase results = none := by
  unfold exportCsv
  cases csvDocument toUpperCase results with
  | none => rfl
  | some text => rfl

end Places
